import Mathlib

/-!
# PLCrashAsyncLocalSymbolication

A shallow embedding of `Source/PLCrashAsyncLocalSymbolication.c` and the
properties of its symbol resolver.

* C `int` values (`cursor`, `limit`, `symStringMaxLen`) are `Int`. The only
  arithmetic on them is `cursor++`, executed when `cursor < limit`, so it never
  leaves the range of `int`.
* `pl_vm_address_t` and `pl_vm_size_t` are unsigned; they are `Nat`. The code
  only copies and compares them (and counts `i` up to a length).
* A C `char` is a `Char`, the terminator being `Char.ofNat 0`; the code only
  copies characters, it never computes with them.
* A `char *` is the memory readable through it: a function from the offset
  (relative to the pointer) to the byte stored there. A write is a function
  update, so a store at any offset, in or out of bounds, is visible.
* The two symbol providers and the caller's callback are external. Each
  invocation of a provider is described by the status it returns and the calls
  it makes to the callback it is handed; the caller's callback is observed
  through an event log.
-/

namespace PLCrash

/-! ## Data model -/

/-- Modelled from the spec: the declaration of the status enumeration is not in
this file; it is a C enumeration (an integer) with one success value. -/
abbrev plcrash_error_t := Int

/-- Modelled from the spec: the success value of the status enumeration. -/
def PLCRASH_ESUCCESS : plcrash_error_t := 0

/-- An address in the target process (unsigned). -/
abbrev pl_vm_address_t := Nat

/-- A size in the target process (unsigned). -/
abbrev pl_vm_size_t := Nat

/-- Modelled from the spec: a string handle, given by what its two queries
report: each yields a status and a value (a length, a borrowed pointer to
bytes that are not NUL-terminated). -/
structure plcrash_async_macho_string_t where
  lengthErr : plcrash_error_t
  length : pl_vm_size_t
  ptrErr : plcrash_error_t
  ptr : Nat → Char

/-- Modelled from the spec: the length query of a string handle. -/
def plcrash_async_macho_string_get_length (s : plcrash_async_macho_string_t) :
    plcrash_error_t × pl_vm_size_t :=
  (s.lengthErr, s.length)

/-- Modelled from the spec: the pointer query of a string handle. -/
def plcrash_async_macho_string_get_pointer (s : plcrash_async_macho_string_t) :
    plcrash_error_t × (Nat → Char) :=
  (s.ptrErr, s.ptr)

/-- The memory behind a string literal: its characters, then the terminator. -/
def literal (s : List Char) : Nat → Char :=
  fun i => s.getD i (Char.ofNat 0)

/-- The context `struct objc_callback_ctx`; `symString` is the memory behind the
pointer of that name. -/
structure objc_callback_ctx where
  symString : Int → Char
  symStringMaxLen : Int
  imp : pl_vm_address_t
  didError : Bool

/-! ## The probes and the synthesizer -/

/-- The probe `saveMachOAddressCB`: stores the address in the slot `ctx`. -/
def saveMachOAddressCB (address : pl_vm_address_t) (_name : List Char)
    (_ctx : pl_vm_address_t) : pl_vm_address_t :=
  address

/-- The probe `saveObjCAddressCB`: stores the imp in the slot `ctx`. -/
def saveObjCAddressCB (_isClassMethod : Bool)
    (_className _methodName : plcrash_async_macho_string_t)
    (imp : pl_vm_address_t) (_ctx : pl_vm_address_t) : pl_vm_address_t :=
  imp

/-- The function `append_char`: the returned flag, the memory behind `str` and
the cursor after the call. -/
def append_char (str : Int → Char) (c : Char) (cursor : Int) (limit : Int) :
    Bool × (Int → Char) × Int :=
  if cursor ≥ limit then (false, str, cursor)
  else (true, Function.update str cursor c, cursor + 1)

/-- The loop `for (i = 0; i < length; i++) { if (!append_char(..., ptr[i], ...)) break; }`
with `n` iterations left, the next one at index `i`. -/
def append_loop (ptr : Nat → Char) (limit : Int) :
    Nat → Nat → (Int → Char) × Int → (Int → Char) × Int
  | 0, _, s => s
  | n + 1, i, s =>
    match append_char s.1 (ptr i) s.2 limit with
    | (true, str, cursor) => append_loop ptr limit n (i + 1) (str, cursor)
    | (false, str, cursor) => (str, cursor)

/-- The callback `callbackObjCAddressCB`, as a transformer of the context. -/
def callbackObjCAddressCB (isClassMethod : Bool)
    (className methodName : plcrash_async_macho_string_t)
    (imp : pl_vm_address_t) (ctx : objc_callback_ctx) : objc_callback_ctx :=
  let ctx1 := { ctx with imp := imp }
  let lengthErr := (plcrash_async_macho_string_get_length className).1
  let ptrErr := (plcrash_async_macho_string_get_pointer className).1
  let cls : pl_vm_size_t × (Nat → Char) × objc_callback_ctx :=
    if lengthErr ≠ PLCRASH_ESUCCESS ∨ ptrErr ≠ PLCRASH_ESUCCESS then
      (5, literal ['E', 'R', 'R', 'O', 'R'], { ctx1 with didError := true })
    else
      ((plcrash_async_macho_string_get_length className).2,
        (plcrash_async_macho_string_get_pointer className).2, ctx1)
  let classNameLength := cls.1
  let classNamePtr := cls.2.1
  let ctx2 := cls.2.2
  let lengthErr := (plcrash_async_macho_string_get_length methodName).1
  let ptrErr := (plcrash_async_macho_string_get_pointer methodName).1
  let mth : pl_vm_size_t × (Nat → Char) × objc_callback_ctx :=
    if lengthErr ≠ PLCRASH_ESUCCESS ∨ ptrErr ≠ PLCRASH_ESUCCESS then
      (5, literal ['E', 'R', 'R', 'O', 'R'], { ctx2 with didError := true })
    else
      ((plcrash_async_macho_string_get_length methodName).2,
        (plcrash_async_macho_string_get_pointer methodName).2, ctx2)
  let methodNameLength := mth.1
  let methodNamePtr := mth.2.1
  let ctx3 := mth.2.2
  let symString := ctx3.symString
  let maxLen := ctx3.symStringMaxLen
  let cursor : Int := 0
  let a1 := append_char symString (if isClassMethod then '+' else '-') cursor maxLen
  let a2 := append_char a1.2.1 '[' a1.2.2 maxLen
  let l1 := append_loop classNamePtr maxLen classNameLength 0 (a2.2.1, a2.2.2)
  let a3 := append_char l1.1 ' ' l1.2 maxLen
  let l2 := append_loop methodNamePtr maxLen methodNameLength 0 (a3.2.1, a3.2.2)
  let a4 := append_char l2.1 ']' l2.2 maxLen
  { ctx3 with symString := a4.2.1 }

/-! ## The providers and the resolver -/

/-- One call a native-symbol provider makes to the callback it is handed. -/
structure macho_call where
  address : pl_vm_address_t
  name : List Char
deriving DecidableEq

/-- One invocation of the native-symbol provider: the status it returns and the
calls it makes, in order, to the callback it is handed. -/
structure macho_result where
  err : plcrash_error_t
  calls : List macho_call

/-- One call an object-runtime provider makes to the callback it is handed. -/
structure objc_call where
  isClassMethod : Bool
  className : plcrash_async_macho_string_t
  methodName : plcrash_async_macho_string_t
  imp : pl_vm_address_t

/-- One invocation of the object-runtime provider: the status it returns and
the calls it makes, in order, to the callback it is handed. -/
structure objc_result where
  err : plcrash_error_t
  calls : List objc_call

/-- Modelled from the spec: the native-symbol provider, which is not in this
file. It makes its calls to `callback`, threading the context, and returns its
status. -/
def plcrash_async_macho_find_symbol {σ : Type} (r : macho_result)
    (callback : pl_vm_address_t → List Char → σ → σ) (ctx : σ) : plcrash_error_t × σ :=
  (r.err, r.calls.foldl (fun s c => callback c.address c.name s) ctx)

/-- Modelled from the spec: the object-runtime provider, which is not in this
file. It makes its calls to `callback`, threading the context, and returns its
status. -/
def plcrash_async_objc_find_method {σ : Type} (r : objc_result)
    (callback : Bool → plcrash_async_macho_string_t → plcrash_async_macho_string_t →
      pl_vm_address_t → σ → σ) (ctx : σ) : plcrash_error_t × σ :=
  (r.err, r.calls.foldl (fun s c => callback c.isClassMethod c.className c.methodName c.imp s) ctx)

/-- The environment of one call of the resolver: for each provider, the outcome
of its `k`-th invocation (counted from 0) for an image and a pc. -/
structure Env where
  macho : Nat → pl_vm_address_t → Nat → macho_result
  objc : Nat → Nat → pl_vm_address_t → Nat → objc_result

/-- The callback and context handed to the native-symbol provider. -/
inductive macho_cb where
  | saveMachOAddressCB
  | caller (ctx : Nat)
deriving DecidableEq

/-- The callback handed to the object-runtime provider. -/
inductive objc_cb where
  | saveObjCAddressCB
  | callbackObjCAddressCB
deriving DecidableEq

/-- What one call of the resolver does to the outside, in program order. -/
inductive Event where
  | macho_find_symbol (image : Nat) (pc : pl_vm_address_t) (cb : macho_cb)
  | objc_find_method (image : Nat) (cache : Nat) (pc : pl_vm_address_t) (cb : objc_cb)
  | callback (address : pl_vm_address_t) (name : List Char) (ctx : Nat)
deriving DecidableEq

/-- The caller's callback: it is observed as an event. -/
def caller_callback (ctx : Nat) (address : pl_vm_address_t) (name : List Char)
    (log : List Event) : List Event :=
  log ++ [Event.callback address name ctx]

/-- The size of the array `symString` of the resolver. -/
def symString_size : Nat := 128

/-- The bytes of an array of `n` bytes, read through a pointer to it. -/
def bytes (str : Int → Char) (n : Nat) : List Char :=
  (List.range n).map (fun i => str (Int.ofNat i))

/-- The initial value of `innerCtx`: the array `symString` is zeroed. -/
def innerCtx_init : objc_callback_ctx :=
  { symString := fun _ => Char.ofNat 0
    symStringMaxLen := Int.ofNat symString_size - 1
    imp := 0
    didError := false }

/-- The resolver `plcrash_async_find_symbol`: the returned status and the log of
what it did. The name handed to the caller's callback by the resolver itself is
the array `symString`. -/
def plcrash_async_find_symbol (E : Env) (image cache : Nat) (pc : pl_vm_address_t)
    (ctx : Nat) : plcrash_error_t × List Event :=
  let m1 := plcrash_async_macho_find_symbol (E.macho image pc 0) saveMachOAddressCB 0
  let machoErr := m1.1
  let machoAddress := m1.2
  let log1 := [Event.macho_find_symbol image pc macho_cb.saveMachOAddressCB]
  let o1 := plcrash_async_objc_find_method (E.objc image cache pc 0) saveObjCAddressCB 0
  let objcErr := o1.1
  let objcAddress := o1.2
  let log2 := log1 ++ [Event.objc_find_method image cache pc objc_cb.saveObjCAddressCB]
  if machoErr ≠ PLCRASH_ESUCCESS ∧ objcErr ≠ PLCRASH_ESUCCESS then
    (machoErr, log2)
  else if objcErr ≠ PLCRASH_ESUCCESS ∨ machoAddress > objcAddress then
    plcrash_async_macho_find_symbol (E.macho image pc 1) (caller_callback ctx)
      (log2 ++ [Event.macho_find_symbol image pc (macho_cb.caller ctx)])
  else
    let o2 := plcrash_async_objc_find_method (E.objc image cache pc 1) callbackObjCAddressCB
      innerCtx_init
    let err := o2.1
    let innerCtx := o2.2
    let log3 := log2 ++ [Event.objc_find_method image cache pc objc_cb.callbackObjCAddressCB]
    if err = PLCRASH_ESUCCESS ∧ innerCtx.imp ≠ 0 ∧ ¬ innerCtx.didError then
      (PLCRASH_ESUCCESS,
        caller_callback ctx innerCtx.imp (bytes innerCtx.symString symString_size) log3)
    else
      plcrash_async_macho_find_symbol (E.macho image pc 1) (caller_callback ctx)
        (log3 ++ [Event.macho_find_symbol image pc (macho_cb.caller ctx)])

/-! ## Definitions used to state the properties -/

/-- Whether one of the two queries of a string handle fails. -/
def query_failed (s : plcrash_async_macho_string_t) : Bool :=
  decide ((plcrash_async_macho_string_get_length s).1 ≠ PLCRASH_ESUCCESS ∨
    (plcrash_async_macho_string_get_pointer s).1 ≠ PLCRASH_ESUCCESS)

/-- The characters a string handle stands for in a descriptor: the text `ERROR`
when one of its queries fails, its bytes otherwise. -/
def component (s : plcrash_async_macho_string_t) : List Char :=
  if query_failed s then ['E', 'R', 'R', 'O', 'R']
  else (List.range (plcrash_async_macho_string_get_length s).2).map
    (plcrash_async_macho_string_get_pointer s).2

/-- The full descriptor: sign, bracket, class, space, method, bracket. -/
def descriptor (isClassMethod : Bool) (className methodName : plcrash_async_macho_string_t) :
    List Char :=
  [if isClassMethod then '+' else '-', '['] ++ component className ++ [' '] ++
    component methodName ++ [']']

/-- The memory `str` after the characters of `l` are stored at offsets `0, 1, ...`. -/
def store (str : Int → Char) (l : List Char) : Int → Char :=
  fun i => if 0 ≤ i ∧ i < l.length then l.getD i.toNat (Char.ofNat 0) else str i

/-- A string handle whose two queries succeed, for the bytes of `s`. -/
def handle_of (s : List Char) : plcrash_async_macho_string_t :=
  { lengthErr := PLCRASH_ESUCCESS, length := s.length, ptrErr := PLCRASH_ESUCCESS,
    ptr := fun i => s.getD i (Char.ofNat 0) }

/-- A context over a buffer filled with dots, with capacity `n`. -/
def dots_ctx (n : Int) : objc_callback_ctx :=
  { symString := fun _ => '.', symStringMaxLen := n, imp := 0, didError := false }

/-- A string handle for the bytes of `s` whose queries return the given
statuses. -/
def handle_with (lengthErr ptrErr : plcrash_error_t) (s : List Char) :
    plcrash_async_macho_string_t :=
  { lengthErr := lengthErr, length := s.length, ptrErr := ptrErr,
    ptr := fun i => s.getD i (Char.ofNat 0) }

/-- The imp the object-runtime provider reported in an invocation: the one of
its last call to the callback, 0 when it made no call. -/
def reported_imp (calls : List objc_call) : pl_vm_address_t :=
  match calls.getLast? with
  | none => 0
  | some c => c.imp

/-- Whether a name query failed in one of the calls of an invocation. -/
def name_query_failed (calls : List objc_call) : Bool :=
  calls.any (fun c => query_failed c.className || query_failed c.methodName)

/-- Whether an event is a run of the caller's callback. -/
def Event.is_callback : Event → Bool
  | Event.callback _ _ _ => true
  | _ => false

/-- Whether an event is an invocation of the native-symbol provider. -/
def Event.is_macho : Event → Bool
  | Event.macho_find_symbol _ _ _ => true
  | _ => false

/-- Whether an event is an invocation of the native-symbol provider that is
handed the caller's callback. -/
def Event.hands_caller : Event → Bool
  | Event.macho_find_symbol _ _ (macho_cb.caller _) => true
  | _ => false

/-- An environment whose providers do not depend on the image and the pc: the
outcomes of the first and of the later invocations of each provider. -/
def env_of (m0 m1 : macho_result) (o0 o1 : objc_result) : Env :=
  { macho := fun _ _ k => if k = 0 then m0 else m1
    objc := fun _ _ _ k => if k = 0 then o0 else o1 }

/-- A native-symbol invocation that succeeds with one call to its callback. -/
def macho_found (address : pl_vm_address_t) (name : List Char) : macho_result :=
  { err := PLCRASH_ESUCCESS, calls := [{ address := address, name := name }] }

/-- A native-symbol invocation that fails with status `err` and makes no call. -/
def macho_failed (err : plcrash_error_t) : macho_result :=
  { err := err, calls := [] }

/-- An object-runtime invocation that succeeds with one call to its callback. -/
def objc_found (isClassMethod : Bool) (className methodName : plcrash_async_macho_string_t)
    (imp : pl_vm_address_t) : objc_result :=
  { err := PLCRASH_ESUCCESS
    calls := [{ isClassMethod := isClassMethod, className := className,
                methodName := methodName, imp := imp }] }

/-- An object-runtime invocation that fails with status `err` and makes no call. -/
def objc_failed (err : plcrash_error_t) : objc_result :=
  { err := err, calls := [] }

/-- Whether an event is an invocation of the object-runtime provider. -/
def Event.is_objc : Event → Bool
  | Event.objc_find_method _ _ _ _ => true
  | _ => false

/-- The value of the local variable `cursor` when `callbackObjCAddressCB`
returns, that is, the number of characters it stored: the same statements as
`callbackObjCAddressCB`, read at the last `append_char`. -/
def callbackObjCAddressCB_cursor (isClassMethod : Bool)
    (className methodName : plcrash_async_macho_string_t)
    (imp : pl_vm_address_t) (ctx : objc_callback_ctx) : Int :=
  let ctx1 := { ctx with imp := imp }
  let lengthErr := (plcrash_async_macho_string_get_length className).1
  let ptrErr := (plcrash_async_macho_string_get_pointer className).1
  let cls : pl_vm_size_t × (Nat → Char) × objc_callback_ctx :=
    if lengthErr ≠ PLCRASH_ESUCCESS ∨ ptrErr ≠ PLCRASH_ESUCCESS then
      (5, literal ['E', 'R', 'R', 'O', 'R'], { ctx1 with didError := true })
    else
      ((plcrash_async_macho_string_get_length className).2,
        (plcrash_async_macho_string_get_pointer className).2, ctx1)
  let classNameLength := cls.1
  let classNamePtr := cls.2.1
  let ctx2 := cls.2.2
  let lengthErr := (plcrash_async_macho_string_get_length methodName).1
  let ptrErr := (plcrash_async_macho_string_get_pointer methodName).1
  let mth : pl_vm_size_t × (Nat → Char) × objc_callback_ctx :=
    if lengthErr ≠ PLCRASH_ESUCCESS ∨ ptrErr ≠ PLCRASH_ESUCCESS then
      (5, literal ['E', 'R', 'R', 'O', 'R'], { ctx2 with didError := true })
    else
      ((plcrash_async_macho_string_get_length methodName).2,
        (plcrash_async_macho_string_get_pointer methodName).2, ctx2)
  let methodNameLength := mth.1
  let methodNamePtr := mth.2.1
  let ctx3 := mth.2.2
  let symString := ctx3.symString
  let maxLen := ctx3.symStringMaxLen
  let cursor : Int := 0
  let a1 := append_char symString (if isClassMethod then '+' else '-') cursor maxLen
  let a2 := append_char a1.2.1 '[' a1.2.2 maxLen
  let l1 := append_loop classNamePtr maxLen classNameLength 0 (a2.2.1, a2.2.2)
  let a3 := append_char l1.1 ' ' l1.2 maxLen
  let l2 := append_loop methodNamePtr maxLen methodNameLength 0 (a3.2.1, a3.2.2)
  let a4 := append_char l2.1 ']' l2.2 maxLen
  a4.2.2

/-! ## The synthesizer in closed form -/

theorem store_nil (str : Int → Char) : store str [] = str := by
  funext i
  simp [store]

theorem store_concat (str : Int → Char) (l : List Char) (c : Char) :
    Function.update (store str l) (l.length : Int) c = store str (l ++ [c]) := by
  funext i
  by_cases h : i = (l.length : Int)
  · subst h
    simp [store, Function.update]
  · simp only [Function.update, h, store, dite_false, List.length_append, List.length_singleton]
    by_cases h2 : 0 ≤ i ∧ i < (l.length : Int)
    · have h3 : 0 ≤ i ∧ i < ((l.length + 1 : Nat) : Int) := by omega
      rw [if_pos h2, if_pos h3]
      have : i.toNat < l.length := by omega
      simp [List.getD_eq_getElem?_getD, List.getElem?_append_left this]
    · have h3 : ¬ (0 ≤ i ∧ i < ((l.length + 1 : Nat) : Int)) := by omega
      rw [if_neg h2, if_neg h3]

/-- One `append_char` after the characters of `l` were offered from cursor 0. -/
theorem append_char_step (str : Int → Char) (limit : Int) (l : List Char) (c : Char) :
    append_char (store str (l.take limit.toNat)) c (((l.take limit.toNat).length : Nat) : Int) limit =
      (decide ((l.length : Int) < limit), store str ((l ++ [c]).take limit.toNat),
        ((((l ++ [c]).take limit.toNat).length : Nat) : Int)) := by
  unfold append_char
  by_cases h : (l.length : Int) < limit
  · have h1 : l.length < limit.toNat := by omega
    have e1 : l.take limit.toNat = l := List.take_of_length_le (by omega)
    have e2 : (l ++ [c]).take limit.toNat = l ++ [c] :=
      List.take_of_length_le (by simp; omega)
    rw [e1, e2, if_neg (by omega)]
    simp [h, store_concat]
  · have e2 : (l ++ [c]).take limit.toNat = l.take limit.toNat := by
      by_cases hl : 0 ≤ limit
      · exact List.take_append_of_le_length (by omega)
      · have : limit.toNat = 0 := by omega
        simp [this]
    rw [e2, if_pos]
    · simp [h]
    · simp only [List.length_take, ge_iff_le]
      omega

theorem append_loop_spec (ptr : Nat → Char) (str : Int → Char) (limit : Int) (n : Nat) :
    ∀ (i : Nat) (l : List Char),
      append_loop ptr limit n i
          (store str (l.take limit.toNat), (((l.take limit.toNat).length : Nat) : Int)) =
        (store str ((l ++ (List.range' i n).map ptr).take limit.toNat),
          ((((l ++ (List.range' i n).map ptr).take limit.toNat).length : Nat) : Int)) := by
  induction n with
  | zero => intro i l; simp [append_loop]
  | succ n ih =>
    intro i l
    simp only [append_loop, append_char_step]
    by_cases h : (l.length : Int) < limit
    · simp only [h, decide_True]
      rw [ih (i + 1) (l ++ [ptr i])]
      simp [List.range'_succ]
    · simp only [h, decide_False]
      have e : ∀ t : List Char, (l ++ t).take limit.toNat = l.take limit.toNat := by
        intro t
        by_cases hl : 0 ≤ limit
        · exact List.take_append_of_le_length (by omega)
        · have : limit.toNat = 0 := by omega
          simp [this]
      rw [e, e]

theorem append_char_first (str : Int → Char) (limit : Int) (c : Char) :
    append_char str c 0 limit =
      (decide (0 < limit), store str ([c].take limit.toNat),
        ((([c].take limit.toNat).length : Nat) : Int)) := by
  have h := append_char_step str limit [] c
  simpa [store_nil] using h

theorem literal_ERROR :
    (List.range 5).map (literal ['E', 'R', 'R', 'O', 'R']) = ['E', 'R', 'R', 'O', 'R'] := by
  decide

/-- The synthesizer in closed form. -/
theorem callback_spec (isClassMethod : Bool)
    (className methodName : plcrash_async_macho_string_t)
    (imp : pl_vm_address_t) (ctx : objc_callback_ctx) :
    callbackObjCAddressCB isClassMethod className methodName imp ctx =
      { symString := store ctx.symString
          ((descriptor isClassMethod className methodName).take ctx.symStringMaxLen.toNat)
        symStringMaxLen := ctx.symStringMaxLen
        imp := imp
        didError := ctx.didError || query_failed className || query_failed methodName } := by
  unfold callbackObjCAddressCB descriptor component query_failed
  simp only [plcrash_async_macho_string_get_length, plcrash_async_macho_string_get_pointer]
  by_cases hc : className.lengthErr ≠ PLCRASH_ESUCCESS ∨ className.ptrErr ≠ PLCRASH_ESUCCESS <;>
  by_cases hm : methodName.lengthErr ≠ PLCRASH_ESUCCESS ∨ methodName.ptrErr ≠ PLCRASH_ESUCCESS <;>
  simp only [hc, hm, if_true, if_false, decide_True, decide_False, append_char_first,
    append_char_step, append_loop_spec, ← List.range_eq_range', literal_ERROR,
    Bool.or_true, Bool.or_false, Bool.true_or,
    List.singleton_append, List.cons_append, List.nil_append, List.append_assoc,
    Bool.false_eq_true, Bool.or_self]

theorem store_outside (str : Int → Char) (l : List Char) (i : Int)
    (h : i < 0 ∨ (l.length : Int) ≤ i) : store str l i = str i := by
  unfold store
  rw [if_neg]
  omega

theorem bytes_store (str : Int → Char) (l : List Char) (n : Nat) (h : n ≤ l.length) :
    bytes (store str l) n = l.take n := by
  apply List.ext_getElem
  · simp [bytes, h]
  · intro i h1 h2
    simp only [bytes, List.length_map, List.length_range] at h1
    have h3 : i < l.length := by omega
    simp [bytes, store, h3, List.getElem_take]

/-! ## The resolver, branch by branch -/

theorem foldl_caller_callback (ctx : Nat) (calls : List macho_call) :
    ∀ log : List Event,
      calls.foldl (fun s c => caller_callback ctx c.address c.name s) log =
        log ++ calls.map (fun c => Event.callback c.address c.name ctx) := by
  induction calls with
  | nil => intro log; simp
  | cons c cs ih =>
    intro log
    rw [List.foldl_cons, ih]
    simp [caller_callback]

theorem foldl_callback_imp (calls : List objc_call) :
    ∀ ctx0 : objc_callback_ctx,
      (calls.foldl (fun s c =>
          callbackObjCAddressCB c.isClassMethod c.className c.methodName c.imp s) ctx0).imp =
        match calls.getLast? with
        | none => ctx0.imp
        | some c => c.imp := by
  induction calls with
  | nil => intro ctx0; rfl
  | cons c cs ih =>
    intro ctx0
    rw [List.foldl_cons, ih]
    cases cs with
    | nil => simp [callback_spec]
    | cons d ds =>
      rw [List.getLast?_cons_cons]
      cases h : (d :: ds).getLast? with
      | none => simp at h
      | some e => rfl

theorem foldl_callback_didError (calls : List objc_call) :
    ∀ ctx0 : objc_callback_ctx,
      (calls.foldl (fun s c =>
          callbackObjCAddressCB c.isClassMethod c.className c.methodName c.imp s) ctx0).didError =
        (ctx0.didError || name_query_failed calls) := by
  induction calls with
  | nil => intro ctx0; simp [name_query_failed]
  | cons c cs ih =>
    intro ctx0
    rw [List.foldl_cons, ih]
    simp [callback_spec, name_query_failed, Bool.or_assoc]

theorem innerCtx_imp (r : objc_result) :
    (plcrash_async_objc_find_method r callbackObjCAddressCB innerCtx_init).2.imp =
      reported_imp r.calls := by
  simp only [plcrash_async_objc_find_method, foldl_callback_imp, reported_imp]
  rfl

theorem innerCtx_didError (r : objc_result) :
    (plcrash_async_objc_find_method r callbackObjCAddressCB innerCtx_init).2.didError =
      name_query_failed r.calls := by
  simp [plcrash_async_objc_find_method, foldl_callback_didError, innerCtx_init]

/-- Both probes fail. -/
theorem find_symbol_both_fail (E : Env) (image cache : Nat) (pc : pl_vm_address_t) (ctx : Nat)
    (hm : (E.macho image pc 0).err ≠ PLCRASH_ESUCCESS)
    (ho : (E.objc image cache pc 0).err ≠ PLCRASH_ESUCCESS) :
    plcrash_async_find_symbol E image cache pc ctx =
      ((E.macho image pc 0).err,
        [Event.macho_find_symbol image pc macho_cb.saveMachOAddressCB,
          Event.objc_find_method image cache pc objc_cb.saveObjCAddressCB]) := by
  simp [plcrash_async_find_symbol, plcrash_async_macho_find_symbol,
    plcrash_async_objc_find_method, hm, ho]

/-- The native path. -/
theorem find_symbol_native (E : Env) (image cache : Nat) (pc : pl_vm_address_t) (ctx : Nat)
    (h : (E.macho image pc 0).err = PLCRASH_ESUCCESS ∨
      (E.objc image cache pc 0).err = PLCRASH_ESUCCESS)
    (hn : (E.objc image cache pc 0).err ≠ PLCRASH_ESUCCESS ∨
      (plcrash_async_macho_find_symbol (E.macho image pc 0) saveMachOAddressCB 0).2 >
        (plcrash_async_objc_find_method (E.objc image cache pc 0) saveObjCAddressCB 0).2) :
    plcrash_async_find_symbol E image cache pc ctx =
      ((E.macho image pc 1).err,
        [Event.macho_find_symbol image pc macho_cb.saveMachOAddressCB,
          Event.objc_find_method image cache pc objc_cb.saveObjCAddressCB,
          Event.macho_find_symbol image pc (macho_cb.caller ctx)] ++
          (E.macho image pc 1).calls.map (fun c => Event.callback c.address c.name ctx)) := by
  have h1 : ¬ ((E.macho image pc 0).err ≠ PLCRASH_ESUCCESS ∧
      (E.objc image cache pc 0).err ≠ PLCRASH_ESUCCESS) := by
    rintro ⟨a, b⟩
    cases h with
    | inl h => exact a h
    | inr h => exact b h
  unfold plcrash_async_find_symbol
  simp only [plcrash_async_macho_find_symbol, plcrash_async_objc_find_method] at hn ⊢
  rw [if_neg h1, if_pos hn, foldl_caller_callback]
  simp

/-- The object-runtime path when its second invocation is accepted. -/
theorem find_symbol_objc (E : Env) (image cache : Nat) (pc : pl_vm_address_t) (ctx : Nat)
    (ho : (E.objc image cache pc 0).err = PLCRASH_ESUCCESS)
    (ha : ¬ (plcrash_async_macho_find_symbol (E.macho image pc 0) saveMachOAddressCB 0).2 >
        (plcrash_async_objc_find_method (E.objc image cache pc 0) saveObjCAddressCB 0).2)
    (hok : (E.objc image cache pc 1).err = PLCRASH_ESUCCESS ∧
      reported_imp (E.objc image cache pc 1).calls ≠ 0 ∧
      name_query_failed (E.objc image cache pc 1).calls = false) :
    plcrash_async_find_symbol E image cache pc ctx =
      (PLCRASH_ESUCCESS,
        [Event.macho_find_symbol image pc macho_cb.saveMachOAddressCB,
          Event.objc_find_method image cache pc objc_cb.saveObjCAddressCB,
          Event.objc_find_method image cache pc objc_cb.callbackObjCAddressCB,
          Event.callback (reported_imp (E.objc image cache pc 1).calls)
            (bytes (plcrash_async_objc_find_method (E.objc image cache pc 1)
              callbackObjCAddressCB innerCtx_init).2.symString symString_size) ctx]) := by
  have h1 : ¬ ((plcrash_async_macho_find_symbol (E.macho image pc 0)
        saveMachOAddressCB 0).1 ≠ PLCRASH_ESUCCESS ∧
      (plcrash_async_objc_find_method (E.objc image cache pc 0)
        saveObjCAddressCB 0).1 ≠ PLCRASH_ESUCCESS) := fun h => h.2 ho
  have h2 : ¬ ((plcrash_async_objc_find_method (E.objc image cache pc 0)
        saveObjCAddressCB 0).1 ≠ PLCRASH_ESUCCESS ∨
      (plcrash_async_macho_find_symbol (E.macho image pc 0) saveMachOAddressCB 0).2 >
        (plcrash_async_objc_find_method (E.objc image cache pc 0) saveObjCAddressCB 0).2) := by
    rintro (h | h)
    · exact h ho
    · exact ha h
  have h3 : (plcrash_async_objc_find_method (E.objc image cache pc 1)
        callbackObjCAddressCB innerCtx_init).1 = PLCRASH_ESUCCESS ∧
      (plcrash_async_objc_find_method (E.objc image cache pc 1)
        callbackObjCAddressCB innerCtx_init).2.imp ≠ 0 ∧
      ¬ (plcrash_async_objc_find_method (E.objc image cache pc 1)
        callbackObjCAddressCB innerCtx_init).2.didError = true := by
    rw [innerCtx_imp, innerCtx_didError]
    exact ⟨hok.1, hok.2.1, by simp [hok.2.2]⟩
  unfold plcrash_async_find_symbol
  simp only []
  rw [if_neg h1, if_neg h2, if_pos h3, innerCtx_imp]
  simp [caller_callback]

/-- The object-runtime path when its second invocation is not accepted. -/
theorem find_symbol_fallback (E : Env) (image cache : Nat) (pc : pl_vm_address_t) (ctx : Nat)
    (ho : (E.objc image cache pc 0).err = PLCRASH_ESUCCESS)
    (ha : ¬ (plcrash_async_macho_find_symbol (E.macho image pc 0) saveMachOAddressCB 0).2 >
        (plcrash_async_objc_find_method (E.objc image cache pc 0) saveObjCAddressCB 0).2)
    (hbad : ¬ ((E.objc image cache pc 1).err = PLCRASH_ESUCCESS ∧
      reported_imp (E.objc image cache pc 1).calls ≠ 0 ∧
      name_query_failed (E.objc image cache pc 1).calls = false)) :
    plcrash_async_find_symbol E image cache pc ctx =
      ((E.macho image pc 1).err,
        [Event.macho_find_symbol image pc macho_cb.saveMachOAddressCB,
          Event.objc_find_method image cache pc objc_cb.saveObjCAddressCB,
          Event.objc_find_method image cache pc objc_cb.callbackObjCAddressCB,
          Event.macho_find_symbol image pc (macho_cb.caller ctx)] ++
          (E.macho image pc 1).calls.map (fun c => Event.callback c.address c.name ctx)) := by
  have h1 : ¬ ((plcrash_async_macho_find_symbol (E.macho image pc 0)
        saveMachOAddressCB 0).1 ≠ PLCRASH_ESUCCESS ∧
      (plcrash_async_objc_find_method (E.objc image cache pc 0)
        saveObjCAddressCB 0).1 ≠ PLCRASH_ESUCCESS) := fun h => h.2 ho
  have h2 : ¬ ((plcrash_async_objc_find_method (E.objc image cache pc 0)
        saveObjCAddressCB 0).1 ≠ PLCRASH_ESUCCESS ∨
      (plcrash_async_macho_find_symbol (E.macho image pc 0) saveMachOAddressCB 0).2 >
        (plcrash_async_objc_find_method (E.objc image cache pc 0) saveObjCAddressCB 0).2) := by
    rintro (h | h)
    · exact h ho
    · exact ha h
  have h3 : ¬ ((plcrash_async_objc_find_method (E.objc image cache pc 1)
        callbackObjCAddressCB innerCtx_init).1 = PLCRASH_ESUCCESS ∧
      (plcrash_async_objc_find_method (E.objc image cache pc 1)
        callbackObjCAddressCB innerCtx_init).2.imp ≠ 0 ∧
      ¬ (plcrash_async_objc_find_method (E.objc image cache pc 1)
        callbackObjCAddressCB innerCtx_init).2.didError = true) := by
    rw [innerCtx_imp, innerCtx_didError]
    intro h
    exact hbad ⟨h.1, h.2.1, by simpa using h.2.2⟩
  unfold plcrash_async_find_symbol
  simp only []
  rw [if_neg h1, if_neg h2, if_neg h3]
  simp only [plcrash_async_macho_find_symbol, foldl_caller_callback]
  simp

/-! ## Properties of the resolver -/

/-- Claim C1: on the object-runtime path (the object-runtime probe succeeded
and the native probe address is not strictly greater), the resolver itself
runs the caller's callback, right after the second object-runtime invocation,
and returns success if and only if that invocation returned success, reported
a non-zero imp and no name query failed. In that case the callback runs once,
with the imp of that invocation and the array `symString`, and the native
provider is not invoked again. -/
theorem C1_objc_path_success (E : Env) (image cache : Nat) (pc : pl_vm_address_t) (ctx : Nat)
    (ho : (E.objc image cache pc 0).err = PLCRASH_ESUCCESS)
    (ha : ¬ (plcrash_async_macho_find_symbol (E.macho image pc 0) saveMachOAddressCB 0).2 >
        (plcrash_async_objc_find_method (E.objc image cache pc 0) saveObjCAddressCB 0).2) :
    (((E.objc image cache pc 1).err = PLCRASH_ESUCCESS ∧
        reported_imp (E.objc image cache pc 1).calls ≠ 0 ∧
        name_query_failed (E.objc image cache pc 1).calls = false) ↔
      ((plcrash_async_find_symbol E image cache pc ctx).1 = PLCRASH_ESUCCESS ∧
        ∃ address name, (plcrash_async_find_symbol E image cache pc ctx).2 =
          [Event.macho_find_symbol image pc macho_cb.saveMachOAddressCB,
            Event.objc_find_method image cache pc objc_cb.saveObjCAddressCB,
            Event.objc_find_method image cache pc objc_cb.callbackObjCAddressCB,
            Event.callback address name ctx])) ∧
    (((E.objc image cache pc 1).err = PLCRASH_ESUCCESS ∧
        reported_imp (E.objc image cache pc 1).calls ≠ 0 ∧
        name_query_failed (E.objc image cache pc 1).calls = false) →
      plcrash_async_find_symbol E image cache pc ctx =
        (PLCRASH_ESUCCESS,
          [Event.macho_find_symbol image pc macho_cb.saveMachOAddressCB,
            Event.objc_find_method image cache pc objc_cb.saveObjCAddressCB,
            Event.objc_find_method image cache pc objc_cb.callbackObjCAddressCB,
            Event.callback (reported_imp (E.objc image cache pc 1).calls)
              (bytes (plcrash_async_objc_find_method (E.objc image cache pc 1)
                callbackObjCAddressCB innerCtx_init).2.symString symString_size) ctx])) := by
  refine ⟨⟨?_, ?_⟩, ?_⟩
  · intro hok
    rw [find_symbol_objc E image cache pc ctx ho ha hok]
    exact ⟨rfl, _, _, rfl⟩
  · rintro ⟨_, address, name, hlog⟩
    by_contra hbad
    rw [find_symbol_fallback E image cache pc ctx ho ha hbad] at hlog
    simp at hlog
  · intro hok
    exact find_symbol_objc E image cache pc ctx ho ha hok

/-- The witness of claim C1: native probe 0x1000, object-runtime 0x2000,
instance method, class `Foo`, method `bar:`. The callback runs once with
0x2000 and the array holding `-[Foo bar:]` and 117 zero bytes. -/
theorem C1_objc_path_success_witness :
    plcrash_async_find_symbol
        (env_of (macho_found 4096 ['_', 'm', 'a', 'i', 'n'])
          (macho_found 4096 ['_', 'm', 'a', 'i', 'n'])
          (objc_found false (handle_of ['F', 'o', 'o']) (handle_of ['b', 'a', 'r', ':']) 8192)
          (objc_found false (handle_of ['F', 'o', 'o']) (handle_of ['b', 'a', 'r', ':']) 8192))
        1 2 8200 7 =
      (PLCRASH_ESUCCESS,
        [Event.macho_find_symbol 1 8200 macho_cb.saveMachOAddressCB,
          Event.objc_find_method 1 2 8200 objc_cb.saveObjCAddressCB,
          Event.objc_find_method 1 2 8200 objc_cb.callbackObjCAddressCB,
          Event.callback 8192
            (['-', '[', 'F', 'o', 'o', ' ', 'b', 'a', 'r', ':', ']'] ++
              List.replicate 117 (Char.ofNat 0)) 7]) :=
  (C1_objc_path_success
    (env_of (macho_found 4096 ['_', 'm', 'a', 'i', 'n'])
      (macho_found 4096 ['_', 'm', 'a', 'i', 'n'])
      (objc_found false (handle_of ['F', 'o', 'o']) (handle_of ['b', 'a', 'r', ':']) 8192)
      (objc_found false (handle_of ['F', 'o', 'o']) (handle_of ['b', 'a', 'r', ':']) 8192))
    1 2 8200 7 rfl (by decide)).2 ⟨rfl, by decide, rfl⟩

/-- Claim C2: when at least one probe returned success, the third thing the
resolver does is to invoke the native provider with the caller's callback if
the object-runtime probe failed or the native probe address is strictly
greater, and to invoke the object-runtime provider with the synthesizer
otherwise (object-runtime probe succeeded and native address not greater,
equal addresses included). -/
theorem C2_tie_break (E : Env) (image cache : Nat) (pc : pl_vm_address_t) (ctx : Nat)
    (h : (E.macho image pc 0).err = PLCRASH_ESUCCESS ∨
      (E.objc image cache pc 0).err = PLCRASH_ESUCCESS) :
    (((E.objc image cache pc 0).err ≠ PLCRASH_ESUCCESS ∨
        (plcrash_async_macho_find_symbol (E.macho image pc 0) saveMachOAddressCB 0).2 >
          (plcrash_async_objc_find_method (E.objc image cache pc 0) saveObjCAddressCB 0).2) →
      (plcrash_async_find_symbol E image cache pc ctx).2.take 3 =
        [Event.macho_find_symbol image pc macho_cb.saveMachOAddressCB,
          Event.objc_find_method image cache pc objc_cb.saveObjCAddressCB,
          Event.macho_find_symbol image pc (macho_cb.caller ctx)]) ∧
    (((E.objc image cache pc 0).err = PLCRASH_ESUCCESS ∧
        (plcrash_async_macho_find_symbol (E.macho image pc 0) saveMachOAddressCB 0).2 ≤
          (plcrash_async_objc_find_method (E.objc image cache pc 0) saveObjCAddressCB 0).2) →
      (plcrash_async_find_symbol E image cache pc ctx).2.take 3 =
        [Event.macho_find_symbol image pc macho_cb.saveMachOAddressCB,
          Event.objc_find_method image cache pc objc_cb.saveObjCAddressCB,
          Event.objc_find_method image cache pc objc_cb.callbackObjCAddressCB]) := by
  constructor
  · intro hn
    rw [find_symbol_native E image cache pc ctx h hn]
    simp
  · rintro ⟨ho, hle⟩
    have ha : ¬ (plcrash_async_macho_find_symbol (E.macho image pc 0) saveMachOAddressCB 0).2 >
        (plcrash_async_objc_find_method (E.objc image cache pc 0) saveObjCAddressCB 0).2 :=
      Nat.not_lt.mpr hle
    by_cases hok : (E.objc image cache pc 1).err = PLCRASH_ESUCCESS ∧
        reported_imp (E.objc image cache pc 1).calls ≠ 0 ∧
        name_query_failed (E.objc image cache pc 1).calls = false
    · rw [find_symbol_objc E image cache pc ctx ho ha hok]
      simp
    · rw [find_symbol_fallback E image cache pc ctx ho ha hok]
      simp

/-- The witnesses of claim C2: native address 0x3000 against object-runtime
address 0x2000 (native path), a failed object-runtime probe (native path),
and equal addresses 0x2000 (object-runtime path). -/
theorem C2_tie_break_witness :
    (plcrash_async_find_symbol
        (env_of (macho_found 12288 ['_', 'm', 'a', 'i', 'n'])
          (macho_found 12288 ['_', 'm', 'a', 'i', 'n'])
          (objc_found false (handle_of ['F', 'o', 'o']) (handle_of ['b', 'a', 'r', ':']) 8192)
          (objc_found false (handle_of ['F', 'o', 'o']) (handle_of ['b', 'a', 'r', ':']) 8192))
        1 2 12300 7).2.take 3 =
      [Event.macho_find_symbol 1 12300 macho_cb.saveMachOAddressCB,
        Event.objc_find_method 1 2 12300 objc_cb.saveObjCAddressCB,
        Event.macho_find_symbol 1 12300 (macho_cb.caller 7)] ∧
    (plcrash_async_find_symbol
        (env_of (macho_found 4096 ['_', 'm', 'a', 'i', 'n'])
          (macho_found 4096 ['_', 'm', 'a', 'i', 'n']) (objc_failed 8) (objc_failed 8))
        1 2 4100 7).2.take 3 =
      [Event.macho_find_symbol 1 4100 macho_cb.saveMachOAddressCB,
        Event.objc_find_method 1 2 4100 objc_cb.saveObjCAddressCB,
        Event.macho_find_symbol 1 4100 (macho_cb.caller 7)] ∧
    (plcrash_async_find_symbol
        (env_of (macho_found 8192 ['_', 'm', 'a', 'i', 'n'])
          (macho_found 8192 ['_', 'm', 'a', 'i', 'n'])
          (objc_found false (handle_of ['F', 'o', 'o']) (handle_of ['b', 'a', 'r', ':']) 8192)
          (objc_found false (handle_of ['F', 'o', 'o']) (handle_of ['b', 'a', 'r', ':']) 8192))
        1 2 8200 7).2.take 3 =
      [Event.macho_find_symbol 1 8200 macho_cb.saveMachOAddressCB,
        Event.objc_find_method 1 2 8200 objc_cb.saveObjCAddressCB,
        Event.objc_find_method 1 2 8200 objc_cb.callbackObjCAddressCB] :=
  ⟨(C2_tie_break
      (env_of (macho_found 12288 ['_', 'm', 'a', 'i', 'n'])
        (macho_found 12288 ['_', 'm', 'a', 'i', 'n'])
        (objc_found false (handle_of ['F', 'o', 'o']) (handle_of ['b', 'a', 'r', ':']) 8192)
        (objc_found false (handle_of ['F', 'o', 'o']) (handle_of ['b', 'a', 'r', ':']) 8192))
      1 2 12300 7 (Or.inl rfl)).1 (Or.inr (by decide)),
    (C2_tie_break
      (env_of (macho_found 4096 ['_', 'm', 'a', 'i', 'n'])
        (macho_found 4096 ['_', 'm', 'a', 'i', 'n']) (objc_failed 8) (objc_failed 8))
      1 2 4100 7 (Or.inl rfl)).1 (Or.inl (by decide)),
    (C2_tie_break
      (env_of (macho_found 8192 ['_', 'm', 'a', 'i', 'n'])
        (macho_found 8192 ['_', 'm', 'a', 'i', 'n'])
        (objc_found false (handle_of ['F', 'o', 'o']) (handle_of ['b', 'a', 'r', ':']) 8192)
        (objc_found false (handle_of ['F', 'o', 'o']) (handle_of ['b', 'a', 'r', ':']) 8192))
      1 2 8200 7 (Or.inl rfl)).2 ⟨rfl, by decide⟩⟩

/-- Claim C3: when both probes return a non-success status, the resolver
returns the status of the native probe and does nothing after the two probes:
the caller's callback is not run and no provider is invoked a second time. -/
theorem C3_both_fail (E : Env) (image cache : Nat) (pc : pl_vm_address_t) (ctx : Nat)
    (hm : (E.macho image pc 0).err ≠ PLCRASH_ESUCCESS)
    (ho : (E.objc image cache pc 0).err ≠ PLCRASH_ESUCCESS) :
    plcrash_async_find_symbol E image cache pc ctx =
        ((E.macho image pc 0).err,
          [Event.macho_find_symbol image pc macho_cb.saveMachOAddressCB,
            Event.objc_find_method image cache pc objc_cb.saveObjCAddressCB]) ∧
      (plcrash_async_find_symbol E image cache pc ctx).1 ≠ PLCRASH_ESUCCESS := by
  rw [find_symbol_both_fail E image cache pc ctx hm ho]
  exact ⟨rfl, hm⟩

/-- The witness of claim C3: the native probe fails with status 8 and the
object-runtime probe with status 5; the resolver returns 8. -/
theorem C3_both_fail_witness :
    plcrash_async_find_symbol
        (env_of (macho_failed 8) (macho_found 4096 ['_', 'm', 'a', 'i', 'n']) (objc_failed 5)
          (objc_found false (handle_of ['F', 'o', 'o']) (handle_of ['b', 'a', 'r', ':']) 8192))
        1 2 4100 7 =
      (8, [Event.macho_find_symbol 1 4100 macho_cb.saveMachOAddressCB,
          Event.objc_find_method 1 2 4100 objc_cb.saveObjCAddressCB]) :=
  (C3_both_fail
    (env_of (macho_failed 8) (macho_found 4096 ['_', 'm', 'a', 'i', 'n']) (objc_failed 5)
      (objc_found false (handle_of ['F', 'o', 'o']) (handle_of ['b', 'a', 'r', ':']) 8192))
    1 2 4100 7 (by decide) (by decide)).1

/-- Claim C4: on the object-runtime path, when the second object-runtime
invocation returns a non-success status, or reports imp 0 (or makes no call to
its callback), or a name query fails, the resolver does not run the caller's
callback itself: it invokes the native provider once more with the caller's
callback and context, the only runs of the callback are those the native
provider makes, and the resolver returns the status of that invocation. -/
theorem C4_fallback (E : Env) (image cache : Nat) (pc : pl_vm_address_t) (ctx : Nat)
    (ho : (E.objc image cache pc 0).err = PLCRASH_ESUCCESS)
    (ha : ¬ (plcrash_async_macho_find_symbol (E.macho image pc 0) saveMachOAddressCB 0).2 >
        (plcrash_async_objc_find_method (E.objc image cache pc 0) saveObjCAddressCB 0).2)
    (hbad : (E.objc image cache pc 1).err ≠ PLCRASH_ESUCCESS ∨
      reported_imp (E.objc image cache pc 1).calls = 0 ∨
      name_query_failed (E.objc image cache pc 1).calls = true) :
    plcrash_async_find_symbol E image cache pc ctx =
      ((E.macho image pc 1).err,
        [Event.macho_find_symbol image pc macho_cb.saveMachOAddressCB,
          Event.objc_find_method image cache pc objc_cb.saveObjCAddressCB,
          Event.objc_find_method image cache pc objc_cb.callbackObjCAddressCB,
          Event.macho_find_symbol image pc (macho_cb.caller ctx)] ++
          (E.macho image pc 1).calls.map (fun c => Event.callback c.address c.name ctx)) := by
  have hnot : ¬ ((E.objc image cache pc 1).err = PLCRASH_ESUCCESS ∧
      reported_imp (E.objc image cache pc 1).calls ≠ 0 ∧
      name_query_failed (E.objc image cache pc 1).calls = false) := by
    rintro ⟨h1, h2, h3⟩
    rcases hbad with h | h | h
    · exact h h1
    · exact h2 h
    · rw [h3] at h
      exact Bool.false_ne_true h
  exact find_symbol_fallback E image cache pc ctx ho ha hnot

/-- The witnesses of claim C4: a second object-runtime invocation that fails
with status 8, one that reports imp 0, one that makes no call, and one whose
class-name pointer query fails; each falls back to the native provider, which
runs the callback with 0x1000 and `_main`. -/
theorem C4_fallback_witness :
    plcrash_async_find_symbol
        (env_of (macho_found 4096 ['_', 'm', 'a', 'i', 'n'])
          (macho_found 4096 ['_', 'm', 'a', 'i', 'n'])
          (objc_found false (handle_of ['F', 'o', 'o']) (handle_of ['b', 'a', 'r', ':']) 8192)
          (objc_failed 8))
        1 2 8200 7 =
      (PLCRASH_ESUCCESS,
        [Event.macho_find_symbol 1 8200 macho_cb.saveMachOAddressCB,
          Event.objc_find_method 1 2 8200 objc_cb.saveObjCAddressCB,
          Event.objc_find_method 1 2 8200 objc_cb.callbackObjCAddressCB,
          Event.macho_find_symbol 1 8200 (macho_cb.caller 7),
          Event.callback 4096 ['_', 'm', 'a', 'i', 'n'] 7]) ∧
    plcrash_async_find_symbol
        (env_of (macho_found 4096 ['_', 'm', 'a', 'i', 'n']) (macho_failed 8)
          (objc_found false (handle_of ['F', 'o', 'o']) (handle_of ['b', 'a', 'r', ':']) 8192)
          (objc_found false (handle_of ['F', 'o', 'o']) (handle_of ['b', 'a', 'r', ':']) 0))
        1 2 8200 7 =
      (8,
        [Event.macho_find_symbol 1 8200 macho_cb.saveMachOAddressCB,
          Event.objc_find_method 1 2 8200 objc_cb.saveObjCAddressCB,
          Event.objc_find_method 1 2 8200 objc_cb.callbackObjCAddressCB,
          Event.macho_find_symbol 1 8200 (macho_cb.caller 7)]) ∧
    plcrash_async_find_symbol
        (env_of (macho_found 4096 ['_', 'm', 'a', 'i', 'n'])
          (macho_found 4096 ['_', 'm', 'a', 'i', 'n'])
          (objc_found false (handle_of ['F', 'o', 'o']) (handle_of ['b', 'a', 'r', ':']) 8192)
          { err := PLCRASH_ESUCCESS, calls := [] })
        1 2 8200 7 =
      (PLCRASH_ESUCCESS,
        [Event.macho_find_symbol 1 8200 macho_cb.saveMachOAddressCB,
          Event.objc_find_method 1 2 8200 objc_cb.saveObjCAddressCB,
          Event.objc_find_method 1 2 8200 objc_cb.callbackObjCAddressCB,
          Event.macho_find_symbol 1 8200 (macho_cb.caller 7),
          Event.callback 4096 ['_', 'm', 'a', 'i', 'n'] 7]) ∧
    plcrash_async_find_symbol
        (env_of (macho_found 4096 ['_', 'm', 'a', 'i', 'n'])
          (macho_found 4096 ['_', 'm', 'a', 'i', 'n'])
          (objc_found false (handle_of ['F', 'o', 'o']) (handle_of ['b', 'a', 'r', ':']) 8192)
          (objc_found false (handle_with 0 1 ['F', 'o', 'o']) (handle_of ['b', 'a', 'r', ':'])
            8192))
        1 2 8200 7 =
      (PLCRASH_ESUCCESS,
        [Event.macho_find_symbol 1 8200 macho_cb.saveMachOAddressCB,
          Event.objc_find_method 1 2 8200 objc_cb.saveObjCAddressCB,
          Event.objc_find_method 1 2 8200 objc_cb.callbackObjCAddressCB,
          Event.macho_find_symbol 1 8200 (macho_cb.caller 7),
          Event.callback 4096 ['_', 'm', 'a', 'i', 'n'] 7]) :=
  ⟨C4_fallback
      (env_of (macho_found 4096 ['_', 'm', 'a', 'i', 'n'])
        (macho_found 4096 ['_', 'm', 'a', 'i', 'n'])
        (objc_found false (handle_of ['F', 'o', 'o']) (handle_of ['b', 'a', 'r', ':']) 8192)
        (objc_failed 8))
      1 2 8200 7 rfl (by decide) (Or.inl (by decide)),
    C4_fallback
      (env_of (macho_found 4096 ['_', 'm', 'a', 'i', 'n']) (macho_failed 8)
        (objc_found false (handle_of ['F', 'o', 'o']) (handle_of ['b', 'a', 'r', ':']) 8192)
        (objc_found false (handle_of ['F', 'o', 'o']) (handle_of ['b', 'a', 'r', ':']) 0))
      1 2 8200 7 rfl (by decide) (Or.inr (Or.inl rfl)),
    C4_fallback
      (env_of (macho_found 4096 ['_', 'm', 'a', 'i', 'n'])
        (macho_found 4096 ['_', 'm', 'a', 'i', 'n'])
        (objc_found false (handle_of ['F', 'o', 'o']) (handle_of ['b', 'a', 'r', ':']) 8192)
        { err := PLCRASH_ESUCCESS, calls := [] })
      1 2 8200 7 rfl (by decide) (Or.inr (Or.inl rfl)),
    C4_fallback
      (env_of (macho_found 4096 ['_', 'm', 'a', 'i', 'n'])
        (macho_found 4096 ['_', 'm', 'a', 'i', 'n'])
        (objc_found false (handle_of ['F', 'o', 'o']) (handle_of ['b', 'a', 'r', ':']) 8192)
        (objc_found false (handle_with 0 1 ['F', 'o', 'o']) (handle_of ['b', 'a', 'r', ':'])
          8192))
      1 2 8200 7 rfl (by decide) (Or.inr (Or.inr (by decide)))⟩

/-- Claim C5: when every invocation of the native provider makes exactly one
call to its callback if it returns success and none if it returns an error,
the resolver either returns success with exactly one run of the caller's
callback, or returns a non-success status with no run of it, and that status
is the one returned by the last invocation of the native provider. -/
theorem C5_one_or_none (E : Env) (image cache : Nat) (pc : pl_vm_address_t) (ctx : Nat)
    (hnative : ∀ k : Nat,
      ((E.macho image pc k).err = PLCRASH_ESUCCESS → (E.macho image pc k).calls.length = 1) ∧
      ((E.macho image pc k).err ≠ PLCRASH_ESUCCESS → (E.macho image pc k).calls.length = 0)) :
    ((plcrash_async_find_symbol E image cache pc ctx).1 = PLCRASH_ESUCCESS ∧
        (plcrash_async_find_symbol E image cache pc ctx).2.countP Event.is_callback = 1) ∨
    ((plcrash_async_find_symbol E image cache pc ctx).1 ≠ PLCRASH_ESUCCESS ∧
        (plcrash_async_find_symbol E image cache pc ctx).2.countP Event.is_callback = 0 ∧
        (plcrash_async_find_symbol E image cache pc ctx).1 =
          (E.macho image pc
            ((plcrash_async_find_symbol E image cache pc ctx).2.countP Event.is_macho - 1)).err) := by
  have hcb : ∀ l : List macho_call,
      (l.map (fun c => Event.callback c.address c.name ctx)).countP Event.is_callback =
        l.length := by
    intro l
    induction l with
    | nil => rfl
    | cons c cs ih => simp [List.countP_cons, Event.is_callback, ih]
  have hmc : ∀ l : List macho_call,
      (l.map (fun c => Event.callback c.address c.name ctx)).countP Event.is_macho = 0 := by
    intro l
    induction l with
    | nil => rfl
    | cons c cs ih => simp [List.countP_cons, Event.is_macho, ih]
  by_cases hboth : (E.macho image pc 0).err ≠ PLCRASH_ESUCCESS ∧
      (E.objc image cache pc 0).err ≠ PLCRASH_ESUCCESS
  · right
    rw [find_symbol_both_fail E image cache pc ctx hboth.1 hboth.2]
    exact ⟨hboth.1, by simp [List.countP_cons, Event.is_callback],
      by simp [List.countP_cons, Event.is_macho]⟩
  · have h : (E.macho image pc 0).err = PLCRASH_ESUCCESS ∨
        (E.objc image cache pc 0).err = PLCRASH_ESUCCESS := by
      by_contra hcon
      exact hboth ⟨fun a => hcon (Or.inl a), fun b => hcon (Or.inr b)⟩
    by_cases hn : (E.objc image cache pc 0).err ≠ PLCRASH_ESUCCESS ∨
        (plcrash_async_macho_find_symbol (E.macho image pc 0) saveMachOAddressCB 0).2 >
          (plcrash_async_objc_find_method (E.objc image cache pc 0) saveObjCAddressCB 0).2
    · rw [find_symbol_native E image cache pc ctx h hn]
      by_cases hs : (E.macho image pc 1).err = PLCRASH_ESUCCESS
      · left
        refine ⟨hs, ?_⟩
        simp [List.countP_cons, List.countP_append, Event.is_callback, hcb,
          (hnative 1).1 hs]
      · right
        refine ⟨hs, ?_, ?_⟩
        · simp [List.countP_cons, List.countP_append, Event.is_callback, hcb,
            (hnative 1).2 hs]
        · simp [List.countP_cons, List.countP_append, Event.is_macho, hmc]
    · have ho : (E.objc image cache pc 0).err = PLCRASH_ESUCCESS := by
        by_contra hcon
        exact hn (Or.inl hcon)
      have ha : ¬ (plcrash_async_macho_find_symbol (E.macho image pc 0)
            saveMachOAddressCB 0).2 >
          (plcrash_async_objc_find_method (E.objc image cache pc 0) saveObjCAddressCB 0).2 :=
        fun hcon => hn (Or.inr hcon)
      by_cases hok : (E.objc image cache pc 1).err = PLCRASH_ESUCCESS ∧
          reported_imp (E.objc image cache pc 1).calls ≠ 0 ∧
          name_query_failed (E.objc image cache pc 1).calls = false
      · left
        rw [find_symbol_objc E image cache pc ctx ho ha hok]
        exact ⟨rfl, by simp [List.countP_cons, Event.is_callback]⟩
      · rw [find_symbol_fallback E image cache pc ctx ho ha hok]
        by_cases hs : (E.macho image pc 1).err = PLCRASH_ESUCCESS
        · left
          refine ⟨hs, ?_⟩
          simp [List.countP_cons, List.countP_append, Event.is_callback, hcb,
            (hnative 1).1 hs]
        · right
          refine ⟨hs, ?_, ?_⟩
          · simp [List.countP_cons, List.countP_append, Event.is_callback, hcb,
              (hnative 1).2 hs]
          · simp [List.countP_cons, List.countP_append, Event.is_macho, hmc]

/-- The witness of claim C5: the object-runtime path is chosen, its second
invocation fails, and the native provider then fails with status 8 and makes
no call; the hypothesis on the native provider holds for this environment. -/
theorem C5_one_or_none_witness :
    ((plcrash_async_find_symbol
        (env_of (macho_found 4096 ['_', 'm', 'a', 'i', 'n']) (macho_failed 8)
          (objc_found false (handle_of ['F', 'o', 'o']) (handle_of ['b', 'a', 'r', ':']) 8192)
          (objc_failed 5)) 1 2 8200 7).1 = PLCRASH_ESUCCESS ∧
      (plcrash_async_find_symbol
        (env_of (macho_found 4096 ['_', 'm', 'a', 'i', 'n']) (macho_failed 8)
          (objc_found false (handle_of ['F', 'o', 'o']) (handle_of ['b', 'a', 'r', ':']) 8192)
          (objc_failed 5)) 1 2 8200 7).2.countP Event.is_callback = 1) ∨
    ((plcrash_async_find_symbol
        (env_of (macho_found 4096 ['_', 'm', 'a', 'i', 'n']) (macho_failed 8)
          (objc_found false (handle_of ['F', 'o', 'o']) (handle_of ['b', 'a', 'r', ':']) 8192)
          (objc_failed 5)) 1 2 8200 7).1 ≠ PLCRASH_ESUCCESS ∧
      (plcrash_async_find_symbol
        (env_of (macho_found 4096 ['_', 'm', 'a', 'i', 'n']) (macho_failed 8)
          (objc_found false (handle_of ['F', 'o', 'o']) (handle_of ['b', 'a', 'r', ':']) 8192)
          (objc_failed 5)) 1 2 8200 7).2.countP Event.is_callback = 0 ∧
      (plcrash_async_find_symbol
        (env_of (macho_found 4096 ['_', 'm', 'a', 'i', 'n']) (macho_failed 8)
          (objc_found false (handle_of ['F', 'o', 'o']) (handle_of ['b', 'a', 'r', ':']) 8192)
          (objc_failed 5)) 1 2 8200 7).1 = 8) :=
  C5_one_or_none
    (env_of (macho_found 4096 ['_', 'm', 'a', 'i', 'n']) (macho_failed 8)
      (objc_found false (handle_of ['F', 'o', 'o']) (handle_of ['b', 'a', 'r', ':']) 8192)
      (objc_failed 5))
    1 2 8200 7
    (fun k => by
      cases k with
      | zero => simp [env_of, macho_found, PLCRASH_ESUCCESS]
      | succ n => simp [env_of, macho_failed, PLCRASH_ESUCCESS])

/-- Claim C6: when every invocation of the native provider makes at most one
call to the callback it is handed, the caller's callback runs at most once in
one call of the resolver. In particular, either the native provider is never
handed the caller's callback, or the callback does not run before the native
provider is handed it: it never runs both directly and through the native
provider. -/
theorem C6_single_invocation (E : Env) (image cache : Nat) (pc : pl_vm_address_t) (ctx : Nat)
    (hnative : ∀ k : Nat, (E.macho image pc k).calls.length ≤ 1) :
    (plcrash_async_find_symbol E image cache pc ctx).2.countP Event.is_callback ≤ 1 ∧
    ((plcrash_async_find_symbol E image cache pc ctx).2.countP Event.hands_caller = 0 ∨
      ((plcrash_async_find_symbol E image cache pc ctx).2.takeWhile
        (fun e => !Event.hands_caller e)).countP Event.is_callback = 0) := by
  have hcb : ∀ l : List macho_call,
      (l.map (fun c => Event.callback c.address c.name ctx)).countP Event.is_callback =
        l.length := by
    intro l
    induction l with
    | nil => rfl
    | cons c cs ih => simp [List.countP_cons, Event.is_callback, ih]
  by_cases hboth : (E.macho image pc 0).err ≠ PLCRASH_ESUCCESS ∧
      (E.objc image cache pc 0).err ≠ PLCRASH_ESUCCESS
  · rw [find_symbol_both_fail E image cache pc ctx hboth.1 hboth.2]
    exact ⟨by simp [List.countP_cons, Event.is_callback],
      Or.inl (by simp [List.countP_cons, Event.hands_caller])⟩
  · have h : (E.macho image pc 0).err = PLCRASH_ESUCCESS ∨
        (E.objc image cache pc 0).err = PLCRASH_ESUCCESS := by
      by_contra hcon
      exact hboth ⟨fun a => hcon (Or.inl a), fun b => hcon (Or.inr b)⟩
    by_cases hn : (E.objc image cache pc 0).err ≠ PLCRASH_ESUCCESS ∨
        (plcrash_async_macho_find_symbol (E.macho image pc 0) saveMachOAddressCB 0).2 >
          (plcrash_async_objc_find_method (E.objc image cache pc 0) saveObjCAddressCB 0).2
    · rw [find_symbol_native E image cache pc ctx h hn]
      refine ⟨?_, Or.inr ?_⟩
      · simpa [List.countP_cons, List.countP_append, Event.is_callback, hcb] using hnative 1
      · simp [List.takeWhile, List.countP_cons, Event.hands_caller, Event.is_callback]
    · have ho : (E.objc image cache pc 0).err = PLCRASH_ESUCCESS := by
        by_contra hcon
        exact hn (Or.inl hcon)
      have ha : ¬ (plcrash_async_macho_find_symbol (E.macho image pc 0)
            saveMachOAddressCB 0).2 >
          (plcrash_async_objc_find_method (E.objc image cache pc 0) saveObjCAddressCB 0).2 :=
        fun hcon => hn (Or.inr hcon)
      by_cases hok : (E.objc image cache pc 1).err = PLCRASH_ESUCCESS ∧
          reported_imp (E.objc image cache pc 1).calls ≠ 0 ∧
          name_query_failed (E.objc image cache pc 1).calls = false
      · rw [find_symbol_objc E image cache pc ctx ho ha hok]
        exact ⟨by simp [List.countP_cons, Event.is_callback],
          Or.inl (by simp [List.countP_cons, Event.hands_caller])⟩
      · rw [find_symbol_fallback E image cache pc ctx ho ha hok]
        refine ⟨?_, Or.inr ?_⟩
        · simpa [List.countP_cons, List.countP_append, Event.is_callback, hcb] using hnative 1
        · simp [List.takeWhile, List.countP_cons, Event.hands_caller, Event.is_callback]

/-- The witness of claim C6: the object-runtime path succeeds while the native
provider would make one call; the callback runs once and the native provider
is never handed it. -/
theorem C6_single_invocation_witness :
    (plcrash_async_find_symbol
        (env_of (macho_found 4096 ['_', 'm', 'a', 'i', 'n'])
          (macho_found 4096 ['_', 'm', 'a', 'i', 'n'])
          (objc_found false (handle_of ['F', 'o', 'o']) (handle_of ['b', 'a', 'r', ':']) 8192)
          (objc_found false (handle_of ['F', 'o', 'o']) (handle_of ['b', 'a', 'r', ':']) 8192))
        1 2 8200 7).2.countP Event.is_callback ≤ 1 :=
  (C6_single_invocation
    (env_of (macho_found 4096 ['_', 'm', 'a', 'i', 'n'])
      (macho_found 4096 ['_', 'm', 'a', 'i', 'n'])
      (objc_found false (handle_of ['F', 'o', 'o']) (handle_of ['b', 'a', 'r', ':']) 8192)
      (objc_found false (handle_of ['F', 'o', 'o']) (handle_of ['b', 'a', 'r', ':']) 8192))
    1 2 8200 7
    (fun k => by
      cases k with
      | zero => exact Nat.le_refl 1
      | succ n => exact Nat.le_refl 1)).1

/-! ## Properties of the synthesizer -/

/-- Claim C7: when the four queries succeed and the capacity is at least
`len(c) + len(m) + 4`, the first `len(c) + len(m) + 4` bytes of the buffer are
the sign, `[`, the bytes of the class name, one space, the bytes of the
method name and `]`. -/
theorem C7_descriptor_format (isClassMethod : Bool)
    (className methodName : plcrash_async_macho_string_t)
    (imp : pl_vm_address_t) (ctx : objc_callback_ctx)
    (hcl : (plcrash_async_macho_string_get_length className).1 = PLCRASH_ESUCCESS)
    (hcp : (plcrash_async_macho_string_get_pointer className).1 = PLCRASH_ESUCCESS)
    (hml : (plcrash_async_macho_string_get_length methodName).1 = PLCRASH_ESUCCESS)
    (hmp : (plcrash_async_macho_string_get_pointer methodName).1 = PLCRASH_ESUCCESS)
    (hN : (((plcrash_async_macho_string_get_length className).2 +
      (plcrash_async_macho_string_get_length methodName).2 + 4 : Nat) : Int) ≤
        ctx.symStringMaxLen) :
    bytes (callbackObjCAddressCB isClassMethod className methodName imp ctx).symString
        ((plcrash_async_macho_string_get_length className).2 +
          (plcrash_async_macho_string_get_length methodName).2 + 4) =
      [if isClassMethod then '+' else '-', '['] ++
        (List.range (plcrash_async_macho_string_get_length className).2).map
          (plcrash_async_macho_string_get_pointer className).2 ++ [' '] ++
        (List.range (plcrash_async_macho_string_get_length methodName).2).map
          (plcrash_async_macho_string_get_pointer methodName).2 ++ [']'] := by
  have hc : query_failed className = false := by simp [query_failed, hcl, hcp]
  have hm : query_failed methodName = false := by simp [query_failed, hml, hmp]
  simp only [plcrash_async_macho_string_get_length, plcrash_async_macho_string_get_pointer]
    at hN ⊢
  have hD : (descriptor isClassMethod className methodName).length =
      className.length + methodName.length + 4 := by
    simp [descriptor, component, hc, hm, plcrash_async_macho_string_get_length]; omega
  rw [callback_spec]
  simp only []
  rw [List.take_of_length_le (by rw [hD]; omega), bytes_store _ _ _ (by rw [hD]),
    List.take_of_length_le (by rw [hD])]
  simp [descriptor, component, hc, hm, plcrash_async_macho_string_get_length,
    plcrash_async_macho_string_get_pointer]

/-- The witnesses of claim C7: class `Foo` and method `bar:` in a buffer of
capacity 127, and two empty names in a buffer of capacity 4. -/
theorem C7_descriptor_format_witness :
    bytes (callbackObjCAddressCB false (handle_of ['F', 'o', 'o'])
        (handle_of ['b', 'a', 'r', ':']) 8192 (dots_ctx 127)).symString 11 =
      ['-', '[', 'F', 'o', 'o', ' ', 'b', 'a', 'r', ':', ']'] ∧
    bytes (callbackObjCAddressCB true (handle_of []) (handle_of []) 8192
        (dots_ctx 4)).symString 4 = ['+', '[', ' ', ']'] :=
  ⟨C7_descriptor_format false (handle_of ['F', 'o', 'o']) (handle_of ['b', 'a', 'r', ':'])
      8192 (dots_ctx 127) rfl rfl rfl rfl (by decide),
    C7_descriptor_format true (handle_of []) (handle_of []) 8192 (dots_ctx 4)
      rfl rfl rfl rfl (by decide)⟩

/-- Claim C8: for every capacity `N` (in particular every `N ≥ 0`) and the full
descriptor `D` (with `ERROR` for a component whose query failed), the
synthesizer stores exactly the first `min N (len D)` characters of `D` at
offsets `0 .. min N (len D) - 1`, in order, and stores nothing anywhere else. -/
theorem C8_truncated_text (isClassMethod : Bool)
    (className methodName : plcrash_async_macho_string_t)
    (imp : pl_vm_address_t) (ctx : objc_callback_ctx) :
    bytes (callbackObjCAddressCB isClassMethod className methodName imp ctx).symString
        (min ctx.symStringMaxLen.toNat (descriptor isClassMethod className methodName).length) =
      (descriptor isClassMethod className methodName).take
        (min ctx.symStringMaxLen.toNat (descriptor isClassMethod className methodName).length) ∧
    ∀ i : Int, (i < 0 ∨
        min ctx.symStringMaxLen ((descriptor isClassMethod className methodName).length : Int) ≤ i) →
      (callbackObjCAddressCB isClassMethod className methodName imp ctx).symString i =
        ctx.symString i := by
  rw [callback_spec]
  simp only []
  constructor
  · rw [bytes_store _ _ _ (by simp), List.take_take]
    congr 1
    omega
  · intro i hi
    apply store_outside
    simp only [List.length_take]
    omega

/-- The witness of claim C8: capacity 5, instance method, class
`LongClassName`, in a buffer filled with dots. -/
theorem C8_truncated_text_witness :
    bytes (callbackObjCAddressCB false
        (handle_of ['L', 'o', 'n', 'g', 'C', 'l', 'a', 's', 's', 'N', 'a', 'm', 'e'])
        (handle_of ['r', 'u', 'n']) 8192 (dots_ctx 5)).symString 5 =
      ['-', '[', 'L', 'o', 'n'] ∧
    (callbackObjCAddressCB false
        (handle_of ['L', 'o', 'n', 'g', 'C', 'l', 'a', 's', 's', 'N', 'a', 'm', 'e'])
        (handle_of ['r', 'u', 'n']) 8192 (dots_ctx 5)).symString 5 = '.' :=
  ⟨(C8_truncated_text false
      (handle_of ['L', 'o', 'n', 'g', 'C', 'l', 'a', 's', 's', 'N', 'a', 'm', 'e'])
      (handle_of ['r', 'u', 'n']) 8192 (dots_ctx 5)).1,
    (C8_truncated_text false
      (handle_of ['L', 'o', 'n', 'g', 'C', 'l', 'a', 's', 's', 'N', 'a', 'm', 'e'])
      (handle_of ['r', 'u', 'n']) 8192 (dots_ctx 5)).2 5 (by decide)⟩

/-- Claim C9: the synthesizer leaves every offset at or past the capacity as
it was, whatever the flag and the names; with capacity 0 the whole buffer is
as it was. The function is total, so it returns in every case. -/
theorem C9_truncation_safety (isClassMethod : Bool)
    (className methodName : plcrash_async_macho_string_t)
    (imp : pl_vm_address_t) (ctx : objc_callback_ctx) :
    (∀ i : Int, ctx.symStringMaxLen ≤ i →
      (callbackObjCAddressCB isClassMethod className methodName imp ctx).symString i =
        ctx.symString i) ∧
    (ctx.symStringMaxLen = 0 →
      (callbackObjCAddressCB isClassMethod className methodName imp ctx).symString =
        ctx.symString) := by
  rw [callback_spec]
  simp only []
  constructor
  · intro i hi
    apply store_outside
    simp only [List.length_take]
    omega
  · intro h0
    rw [h0]
    simp [store_nil]

/-- The witness of claim C9: with capacity 5 the offsets 5 and 200 keep their
dot, and with capacity 0 the offset 0 keeps its dot. -/
theorem C9_truncation_safety_witness :
    (callbackObjCAddressCB false
        (handle_of ['L', 'o', 'n', 'g', 'C', 'l', 'a', 's', 's', 'N', 'a', 'm', 'e'])
        (handle_of ['r', 'u', 'n']) 8192 (dots_ctx 5)).symString 5 = '.' ∧
    (callbackObjCAddressCB false
        (handle_of ['L', 'o', 'n', 'g', 'C', 'l', 'a', 's', 's', 'N', 'a', 'm', 'e'])
        (handle_of ['r', 'u', 'n']) 8192 (dots_ctx 5)).symString 200 = '.' ∧
    (callbackObjCAddressCB true (handle_of ['F', 'o', 'o']) (handle_of ['b', 'a', 'r', ':'])
        8192 (dots_ctx 0)).symString = (dots_ctx 0).symString :=
  ⟨(C9_truncation_safety false
      (handle_of ['L', 'o', 'n', 'g', 'C', 'l', 'a', 's', 's', 'N', 'a', 'm', 'e'])
      (handle_of ['r', 'u', 'n']) 8192 (dots_ctx 5)).1 5 (by decide),
    (C9_truncation_safety false
      (handle_of ['L', 'o', 'n', 'g', 'C', 'l', 'a', 's', 's', 'N', 'a', 'm', 'e'])
      (handle_of ['r', 'u', 'n']) 8192 (dots_ctx 5)).1 200 (by decide),
    (C9_truncation_safety true (handle_of ['F', 'o', 'o']) (handle_of ['b', 'a', 'r', ':'])
      8192 (dots_ctx 0)).2 rfl⟩

/-- Claim C10: when a query of the class-name handle fails, `didError` is set
and the imp is recorded, whatever the capacity, and the descriptor, given
enough capacity, is the sign, `[ERROR `, the method component and `]`; when a
query of the method-name handle fails, `didError` is set and the imp is
recorded, whatever the capacity, and the descriptor, given enough capacity, is
the sign, `[`, the class component and ` ERROR]`; when both fail, `didError`
is set, the imp is recorded and the descriptor, given capacity 14, is the sign
and `[ERROR ERROR]`. -/
theorem C10_placeholder (isClassMethod : Bool)
    (className methodName : plcrash_async_macho_string_t)
    (imp : pl_vm_address_t) (ctx : objc_callback_ctx) :
    (((plcrash_async_macho_string_get_length className).1 ≠ PLCRASH_ESUCCESS ∨
        (plcrash_async_macho_string_get_pointer className).1 ≠ PLCRASH_ESUCCESS) →
      (callbackObjCAddressCB isClassMethod className methodName imp ctx).didError = true ∧
      (callbackObjCAddressCB isClassMethod className methodName imp ctx).imp = imp ∧
      ((((component methodName).length + 9 : Nat) : Int) ≤ ctx.symStringMaxLen →
        bytes (callbackObjCAddressCB isClassMethod className methodName imp ctx).symString
            ((component methodName).length + 9) =
          [if isClassMethod then '+' else '-', '[', 'E', 'R', 'R', 'O', 'R', ' '] ++
            component methodName ++ [']'])) ∧
    (((plcrash_async_macho_string_get_length methodName).1 ≠ PLCRASH_ESUCCESS ∨
        (plcrash_async_macho_string_get_pointer methodName).1 ≠ PLCRASH_ESUCCESS) →
      (callbackObjCAddressCB isClassMethod className methodName imp ctx).didError = true ∧
      (callbackObjCAddressCB isClassMethod className methodName imp ctx).imp = imp ∧
      ((((component className).length + 9 : Nat) : Int) ≤ ctx.symStringMaxLen →
        bytes (callbackObjCAddressCB isClassMethod className methodName imp ctx).symString
            ((component className).length + 9) =
          [if isClassMethod then '+' else '-', '['] ++ component className ++
            [' ', 'E', 'R', 'R', 'O', 'R', ']'])) ∧
    (((plcrash_async_macho_string_get_length className).1 ≠ PLCRASH_ESUCCESS ∨
        (plcrash_async_macho_string_get_pointer className).1 ≠ PLCRASH_ESUCCESS) →
      ((plcrash_async_macho_string_get_length methodName).1 ≠ PLCRASH_ESUCCESS ∨
        (plcrash_async_macho_string_get_pointer methodName).1 ≠ PLCRASH_ESUCCESS) →
      (callbackObjCAddressCB isClassMethod className methodName imp ctx).didError = true ∧
      (callbackObjCAddressCB isClassMethod className methodName imp ctx).imp = imp ∧
      (14 ≤ ctx.symStringMaxLen →
        bytes (callbackObjCAddressCB isClassMethod className methodName imp ctx).symString 14 =
          [if isClassMethod then '+' else '-', '[', 'E', 'R', 'R', 'O', 'R', ' ',
            'E', 'R', 'R', 'O', 'R', ']'])) := by
  rw [callback_spec]
  simp only []
  refine ⟨?_, ?_, ?_⟩
  · intro hc
    have hq : query_failed className = true := by simpa [query_failed] using hc
    have hD : descriptor isClassMethod className methodName =
        [if isClassMethod then '+' else '-', '[', 'E', 'R', 'R', 'O', 'R', ' '] ++
          component methodName ++ [']'] := by
      simp [descriptor, component, hq]
    have hlen : (descriptor isClassMethod className methodName).length =
        (component methodName).length + 9 := by
      rw [hD]; simp
    refine ⟨by simp [hq], trivial, ?_⟩
    intro hN
    rw [List.take_of_length_le (by rw [hlen]; omega), bytes_store _ _ _ (by rw [hlen]),
      List.take_of_length_le (by rw [hlen]), hD]
  · intro hm
    have hq : query_failed methodName = true := by simpa [query_failed] using hm
    have hD : descriptor isClassMethod className methodName =
        [if isClassMethod then '+' else '-', '['] ++ component className ++
          [' ', 'E', 'R', 'R', 'O', 'R', ']'] := by
      simp [descriptor, component, hq]
    have hlen : (descriptor isClassMethod className methodName).length =
        (component className).length + 9 := by
      rw [hD]; simp
    refine ⟨by simp [hq], trivial, ?_⟩
    intro hN
    rw [List.take_of_length_le (by rw [hlen]; omega), bytes_store _ _ _ (by rw [hlen]),
      List.take_of_length_le (by rw [hlen]), hD]
  · intro hc hm
    have hq : query_failed className = true := by simpa [query_failed] using hc
    have hq2 : query_failed methodName = true := by simpa [query_failed] using hm
    have hD : descriptor isClassMethod className methodName =
        [if isClassMethod then '+' else '-', '[', 'E', 'R', 'R', 'O', 'R', ' ',
          'E', 'R', 'R', 'O', 'R', ']'] := by
      simp [descriptor, component, hq, hq2]
    have hlen : (descriptor isClassMethod className methodName).length = 14 := by
      rw [hD]; rfl
    refine ⟨by simp [hq], trivial, ?_⟩
    intro hN
    rw [List.take_of_length_le (by rw [hlen]; omega), bytes_store _ _ _ (by rw [hlen]),
      List.take_of_length_le (by rw [hlen]), hD]

/-- The witnesses of claim C10: a failing length query of the class name, a
failing pointer query of the method name and all queries failing, each with
capacity 127; and a failing length query of the class name with capacity 5,
where the text is cut short and `didError` and the imp are recorded all the
same. -/
theorem C10_placeholder_witness :
    ((callbackObjCAddressCB false (handle_with 1 0 ['F', 'o', 'o'])
        (handle_of ['b', 'a', 'r', ':']) 8192 (dots_ctx 127)).didError = true ∧
      (callbackObjCAddressCB false (handle_with 1 0 ['F', 'o', 'o'])
        (handle_of ['b', 'a', 'r', ':']) 8192 (dots_ctx 127)).imp = 8192 ∧
      bytes (callbackObjCAddressCB false (handle_with 1 0 ['F', 'o', 'o'])
        (handle_of ['b', 'a', 'r', ':']) 8192 (dots_ctx 127)).symString 13 =
      ['-', '[', 'E', 'R', 'R', 'O', 'R', ' ', 'b', 'a', 'r', ':', ']']) ∧
    ((callbackObjCAddressCB true (handle_of ['F', 'o', 'o'])
        (handle_with 0 1 ['b', 'a', 'r', ':']) 8192 (dots_ctx 127)).didError = true ∧
      (callbackObjCAddressCB true (handle_of ['F', 'o', 'o'])
        (handle_with 0 1 ['b', 'a', 'r', ':']) 8192 (dots_ctx 127)).imp = 8192 ∧
      bytes (callbackObjCAddressCB true (handle_of ['F', 'o', 'o'])
        (handle_with 0 1 ['b', 'a', 'r', ':']) 8192 (dots_ctx 127)).symString 12 =
      ['+', '[', 'F', 'o', 'o', ' ', 'E', 'R', 'R', 'O', 'R', ']']) ∧
    ((callbackObjCAddressCB false (handle_with 1 1 ['F', 'o', 'o'])
        (handle_with 1 1 ['b', 'a', 'r', ':']) 8192 (dots_ctx 127)).didError = true ∧
      (callbackObjCAddressCB false (handle_with 1 1 ['F', 'o', 'o'])
        (handle_with 1 1 ['b', 'a', 'r', ':']) 8192 (dots_ctx 127)).imp = 8192 ∧
      bytes (callbackObjCAddressCB false (handle_with 1 1 ['F', 'o', 'o'])
        (handle_with 1 1 ['b', 'a', 'r', ':']) 8192 (dots_ctx 127)).symString 14 =
      ['-', '[', 'E', 'R', 'R', 'O', 'R', ' ', 'E', 'R', 'R', 'O', 'R', ']']) ∧
    ((callbackObjCAddressCB false (handle_with 1 0 ['F', 'o', 'o'])
        (handle_of ['b', 'a', 'r', ':']) 8192 (dots_ctx 5)).didError = true ∧
      (callbackObjCAddressCB false (handle_with 1 0 ['F', 'o', 'o'])
        (handle_of ['b', 'a', 'r', ':']) 8192 (dots_ctx 5)).imp = 8192) :=
  ⟨⟨((C10_placeholder false (handle_with 1 0 ['F', 'o', 'o'])
        (handle_of ['b', 'a', 'r', ':']) 8192 (dots_ctx 127)).1 (Or.inl (by decide))).1,
      ((C10_placeholder false (handle_with 1 0 ['F', 'o', 'o'])
        (handle_of ['b', 'a', 'r', ':']) 8192 (dots_ctx 127)).1 (Or.inl (by decide))).2.1,
      ((C10_placeholder false (handle_with 1 0 ['F', 'o', 'o'])
        (handle_of ['b', 'a', 'r', ':']) 8192 (dots_ctx 127)).1
          (Or.inl (by decide))).2.2 (by decide)⟩,
    ⟨((C10_placeholder true (handle_of ['F', 'o', 'o'])
        (handle_with 0 1 ['b', 'a', 'r', ':']) 8192 (dots_ctx 127)).2.1
          (Or.inr (by decide))).1,
      ((C10_placeholder true (handle_of ['F', 'o', 'o'])
        (handle_with 0 1 ['b', 'a', 'r', ':']) 8192 (dots_ctx 127)).2.1
          (Or.inr (by decide))).2.1,
      ((C10_placeholder true (handle_of ['F', 'o', 'o'])
        (handle_with 0 1 ['b', 'a', 'r', ':']) 8192 (dots_ctx 127)).2.1
          (Or.inr (by decide))).2.2 (by decide)⟩,
    ⟨((C10_placeholder false (handle_with 1 1 ['F', 'o', 'o'])
        (handle_with 1 1 ['b', 'a', 'r', ':']) 8192 (dots_ctx 127)).2.2
          (Or.inl (by decide)) (Or.inl (by decide))).1,
      ((C10_placeholder false (handle_with 1 1 ['F', 'o', 'o'])
        (handle_with 1 1 ['b', 'a', 'r', ':']) 8192 (dots_ctx 127)).2.2
          (Or.inl (by decide)) (Or.inl (by decide))).2.1,
      ((C10_placeholder false (handle_with 1 1 ['F', 'o', 'o'])
        (handle_with 1 1 ['b', 'a', 'r', ':']) 8192 (dots_ctx 127)).2.2
          (Or.inl (by decide)) (Or.inl (by decide))).2.2 (by decide)⟩,
    ⟨((C10_placeholder false (handle_with 1 0 ['F', 'o', 'o'])
        (handle_of ['b', 'a', 'r', ':']) 8192 (dots_ctx 5)).1 (Or.inl (by decide))).1,
      ((C10_placeholder false (handle_with 1 0 ['F', 'o', 'o'])
        (handle_of ['b', 'a', 'r', ':']) 8192 (dots_ctx 5)).1 (Or.inl (by decide))).2.1⟩⟩

/-! ## Further properties of the resolver and of the synthesizer -/

theorem countP_callbacks_is_macho (ctx : Nat) (l : List macho_call) :
    (l.map (fun c => Event.callback c.address c.name ctx)).countP Event.is_macho = 0 := by
  induction l with
  | nil => rfl
  | cons c cs ih => simp [List.countP_cons, Event.is_macho, ih]

theorem countP_callbacks_is_objc (ctx : Nat) (l : List macho_call) :
    (l.map (fun c => Event.callback c.address c.name ctx)).countP Event.is_objc = 0 := by
  induction l with
  | nil => rfl
  | cons c cs ih => simp [List.countP_cons, Event.is_objc, ih]

theorem countP_callbacks_hands_caller (ctx : Nat) (l : List macho_call) :
    (l.map (fun c => Event.callback c.address c.name ctx)).countP Event.hands_caller = 0 := by
  induction l with
  | nil => rfl
  | cons c cs ih => simp [List.countP_cons, Event.hands_caller, ih]

/-- Claim C11: when the native path is chosen, the resolver invokes the native
provider again with the same image and pc and with the caller's callback and
context; the callback runs exactly on the addresses and names the provider
passes; the object-runtime provider is not invoked a second time; and the
resolver returns the status of that native invocation, success or error. -/
theorem C11_resolve_native (E : Env) (image cache : Nat) (pc : pl_vm_address_t) (ctx : Nat)
    (h : (E.macho image pc 0).err = PLCRASH_ESUCCESS ∨
      (E.objc image cache pc 0).err = PLCRASH_ESUCCESS)
    (hn : (E.objc image cache pc 0).err ≠ PLCRASH_ESUCCESS ∨
      (plcrash_async_macho_find_symbol (E.macho image pc 0) saveMachOAddressCB 0).2 >
        (plcrash_async_objc_find_method (E.objc image cache pc 0) saveObjCAddressCB 0).2) :
    plcrash_async_find_symbol E image cache pc ctx =
        ((E.macho image pc 1).err,
          [Event.macho_find_symbol image pc macho_cb.saveMachOAddressCB,
            Event.objc_find_method image cache pc objc_cb.saveObjCAddressCB,
            Event.macho_find_symbol image pc (macho_cb.caller ctx)] ++
            (E.macho image pc 1).calls.map (fun c => Event.callback c.address c.name ctx)) ∧
      (plcrash_async_find_symbol E image cache pc ctx).2.countP Event.is_objc = 1 := by
  rw [find_symbol_native E image cache pc ctx h hn]
  refine ⟨rfl, ?_⟩
  simp only [List.countP_append, countP_callbacks_is_objc]
  simp [List.countP_cons, Event.is_objc]

/-- The witnesses of claim C11: native address 0x3000 against object-runtime
address 0x2000, with a second native invocation that passes 0x3000 and
`_main` and succeeds, and with one that fails with status 8. -/
theorem C11_resolve_native_witness :
    plcrash_async_find_symbol
        (env_of (macho_found 12288 ['_', 'm', 'a', 'i', 'n'])
          (macho_found 12288 ['_', 'm', 'a', 'i', 'n'])
          (objc_found false (handle_of ['F', 'o', 'o']) (handle_of ['b', 'a', 'r', ':']) 8192)
          (objc_found false (handle_of ['F', 'o', 'o']) (handle_of ['b', 'a', 'r', ':']) 8192))
        1 2 12300 7 =
      (PLCRASH_ESUCCESS,
        [Event.macho_find_symbol 1 12300 macho_cb.saveMachOAddressCB,
          Event.objc_find_method 1 2 12300 objc_cb.saveObjCAddressCB,
          Event.macho_find_symbol 1 12300 (macho_cb.caller 7),
          Event.callback 12288 ['_', 'm', 'a', 'i', 'n'] 7]) ∧
    plcrash_async_find_symbol
        (env_of (macho_found 12288 ['_', 'm', 'a', 'i', 'n']) (macho_failed 8)
          (objc_found false (handle_of ['F', 'o', 'o']) (handle_of ['b', 'a', 'r', ':']) 8192)
          (objc_found false (handle_of ['F', 'o', 'o']) (handle_of ['b', 'a', 'r', ':']) 8192))
        1 2 12300 7 =
      (8,
        [Event.macho_find_symbol 1 12300 macho_cb.saveMachOAddressCB,
          Event.objc_find_method 1 2 12300 objc_cb.saveObjCAddressCB,
          Event.macho_find_symbol 1 12300 (macho_cb.caller 7)]) :=
  ⟨(C11_resolve_native
      (env_of (macho_found 12288 ['_', 'm', 'a', 'i', 'n'])
        (macho_found 12288 ['_', 'm', 'a', 'i', 'n'])
        (objc_found false (handle_of ['F', 'o', 'o']) (handle_of ['b', 'a', 'r', ':']) 8192)
        (objc_found false (handle_of ['F', 'o', 'o']) (handle_of ['b', 'a', 'r', ':']) 8192))
      1 2 12300 7 (Or.inl rfl) (Or.inr (by decide))).1,
    (C11_resolve_native
      (env_of (macho_found 12288 ['_', 'm', 'a', 'i', 'n']) (macho_failed 8)
        (objc_found false (handle_of ['F', 'o', 'o']) (handle_of ['b', 'a', 'r', ':']) 8192)
        (objc_found false (handle_of ['F', 'o', 'o']) (handle_of ['b', 'a', 'r', ':']) 8192))
      1 2 12300 7 (Or.inl rfl) (Or.inr (by decide))).1⟩

/-- Claim C13: starting from `didError = false`, after the synthesizer the
flag is true if and only if one of the four string-handle queries returned a
non-success status, whatever the capacity; so it stays false when the four
queries succeed, also when the descriptor is truncated or the capacity is 0. -/
theorem C13_didError (isClassMethod : Bool)
    (className methodName : plcrash_async_macho_string_t)
    (imp : pl_vm_address_t) (ctx : objc_callback_ctx) (h0 : ctx.didError = false) :
    (callbackObjCAddressCB isClassMethod className methodName imp ctx).didError = true ↔
      ((plcrash_async_macho_string_get_length className).1 ≠ PLCRASH_ESUCCESS ∨
        (plcrash_async_macho_string_get_pointer className).1 ≠ PLCRASH_ESUCCESS ∨
        (plcrash_async_macho_string_get_length methodName).1 ≠ PLCRASH_ESUCCESS ∨
        (plcrash_async_macho_string_get_pointer methodName).1 ≠ PLCRASH_ESUCCESS) := by
  rw [callback_spec]
  simp only [h0, query_failed, Bool.false_or, Bool.or_eq_true, decide_eq_true_eq]
  tauto

/-- The witnesses of claim C13: with capacity 0 and with capacity 5 (a
truncated descriptor) the flag stays false when the four queries succeed, and
it is set when the pointer query of the method name fails. -/
theorem C13_didError_witness :
    (callbackObjCAddressCB false (handle_of ['F', 'o', 'o']) (handle_of ['b', 'a', 'r', ':'])
        8192 (dots_ctx 0)).didError ≠ true ∧
    (callbackObjCAddressCB false
        (handle_of ['L', 'o', 'n', 'g', 'C', 'l', 'a', 's', 's', 'N', 'a', 'm', 'e'])
        (handle_of ['r', 'u', 'n']) 8192 (dots_ctx 5)).didError ≠ true ∧
    (callbackObjCAddressCB false (handle_of ['F', 'o', 'o'])
        (handle_with 0 1 ['b', 'a', 'r', ':']) 8192 (dots_ctx 5)).didError = true :=
  ⟨fun h => absurd ((C13_didError false (handle_of ['F', 'o', 'o'])
      (handle_of ['b', 'a', 'r', ':']) 8192 (dots_ctx 0) rfl).1 h) (by decide),
    fun h => absurd ((C13_didError false
      (handle_of ['L', 'o', 'n', 'g', 'C', 'l', 'a', 's', 's', 'N', 'a', 'm', 'e'])
      (handle_of ['r', 'u', 'n']) 8192 (dots_ctx 5) rfl).1 h) (by decide),
    (C13_didError false (handle_of ['F', 'o', 'o']) (handle_with 0 1 ['b', 'a', 'r', ':'])
      8192 (dots_ctx 5) rfl).2 (Or.inr (Or.inr (Or.inr (by decide))))⟩

/-- Claim C14: in one call of the resolver the native provider is invoked at
most twice and the object-runtime provider at most twice; the first invocation
of each is the address-only probe; the native provider is handed the caller's
callback in at most one invocation, so it is not invoked a third time after a
failed fallback. -/
theorem C14_bounded_provider_use (E : Env) (image cache : Nat) (pc : pl_vm_address_t)
    (ctx : Nat) :
    (plcrash_async_find_symbol E image cache pc ctx).2.countP Event.is_macho ≤ 2 ∧
    (plcrash_async_find_symbol E image cache pc ctx).2.countP Event.is_objc ≤ 2 ∧
    (plcrash_async_find_symbol E image cache pc ctx).2.find? Event.is_macho =
      some (Event.macho_find_symbol image pc macho_cb.saveMachOAddressCB) ∧
    (plcrash_async_find_symbol E image cache pc ctx).2.find? Event.is_objc =
      some (Event.objc_find_method image cache pc objc_cb.saveObjCAddressCB) ∧
    (plcrash_async_find_symbol E image cache pc ctx).2.countP Event.hands_caller ≤ 1 := by
  by_cases hboth : (E.macho image pc 0).err ≠ PLCRASH_ESUCCESS ∧
      (E.objc image cache pc 0).err ≠ PLCRASH_ESUCCESS
  · rw [find_symbol_both_fail E image cache pc ctx hboth.1 hboth.2]
    simp [List.countP_cons, List.find?, Event.is_macho, Event.is_objc, Event.hands_caller]
  · have h : (E.macho image pc 0).err = PLCRASH_ESUCCESS ∨
        (E.objc image cache pc 0).err = PLCRASH_ESUCCESS := by
      by_contra hcon
      exact hboth ⟨fun a => hcon (Or.inl a), fun b => hcon (Or.inr b)⟩
    by_cases hn : (E.objc image cache pc 0).err ≠ PLCRASH_ESUCCESS ∨
        (plcrash_async_macho_find_symbol (E.macho image pc 0) saveMachOAddressCB 0).2 >
          (plcrash_async_objc_find_method (E.objc image cache pc 0) saveObjCAddressCB 0).2
    · rw [find_symbol_native E image cache pc ctx h hn]
      simp only [List.countP_append, countP_callbacks_is_macho, countP_callbacks_is_objc,
        countP_callbacks_hands_caller]
      simp [List.countP_cons, List.find?, Event.is_macho, Event.is_objc, Event.hands_caller]
    · have ho : (E.objc image cache pc 0).err = PLCRASH_ESUCCESS := by
        by_contra hcon
        exact hn (Or.inl hcon)
      have ha : ¬ (plcrash_async_macho_find_symbol (E.macho image pc 0)
            saveMachOAddressCB 0).2 >
          (plcrash_async_objc_find_method (E.objc image cache pc 0) saveObjCAddressCB 0).2 :=
        fun hcon => hn (Or.inr hcon)
      by_cases hok : (E.objc image cache pc 1).err = PLCRASH_ESUCCESS ∧
          reported_imp (E.objc image cache pc 1).calls ≠ 0 ∧
          name_query_failed (E.objc image cache pc 1).calls = false
      · rw [find_symbol_objc E image cache pc ctx ho ha hok]
        simp [List.countP_cons, List.find?, Event.is_macho, Event.is_objc,
          Event.hands_caller]
      · rw [find_symbol_fallback E image cache pc ctx ho ha hok]
        simp only [List.countP_append, countP_callbacks_is_macho, countP_callbacks_is_objc,
          countP_callbacks_hands_caller]
        simp [List.countP_cons, List.find?, Event.is_macho, Event.is_objc,
          Event.hands_caller]

theorem bytes_store_zero (l : List Char) (n : Nat) (h : l.length ≤ n) :
    bytes (store (fun _ => Char.ofNat 0) l) n =
      l ++ List.replicate (n - l.length) (Char.ofNat 0) := by
  apply List.ext_getElem
  · simp [bytes]; omega
  · intro i h1 h2
    simp only [bytes, List.length_map, List.length_range] at h1
    by_cases h3 : i < l.length
    · simp [bytes, store, h3, List.getElem_append_left]
    · have h4 : l.length ≤ i := by omega
      simp [bytes, store, h3, List.getElem_append_right h4]

/-- Claim C15: when the resolver runs the caller's callback itself, the second
object-runtime invocation having made one call to its callback, the name it
passes is the 128-byte array `symString`: the first `min 127 (len D)`
characters of the full descriptor `D`, then zero bytes up to index 127
included. The status is success also when the descriptor is truncated. -/
theorem C15_descriptor_buffer (E : Env) (image cache : Nat) (pc : pl_vm_address_t) (ctx : Nat)
    (c : objc_call)
    (ho : (E.objc image cache pc 0).err = PLCRASH_ESUCCESS)
    (ha : ¬ (plcrash_async_macho_find_symbol (E.macho image pc 0) saveMachOAddressCB 0).2 >
        (plcrash_async_objc_find_method (E.objc image cache pc 0) saveObjCAddressCB 0).2)
    (hcalls : (E.objc image cache pc 1).calls = [c])
    (herr : (E.objc image cache pc 1).err = PLCRASH_ESUCCESS)
    (himp : c.imp ≠ 0)
    (hq : query_failed c.className = false ∧ query_failed c.methodName = false) :
    plcrash_async_find_symbol E image cache pc ctx =
        (PLCRASH_ESUCCESS,
          [Event.macho_find_symbol image pc macho_cb.saveMachOAddressCB,
            Event.objc_find_method image cache pc objc_cb.saveObjCAddressCB,
            Event.objc_find_method image cache pc objc_cb.callbackObjCAddressCB,
            Event.callback c.imp
              ((descriptor c.isClassMethod c.className c.methodName).take 127 ++
                List.replicate
                  (128 - min 127 (descriptor c.isClassMethod c.className c.methodName).length)
                  (Char.ofNat 0)) ctx]) ∧
      descriptor c.isClassMethod c.className c.methodName =
        [if c.isClassMethod then '+' else '-', '['] ++
          (List.range (plcrash_async_macho_string_get_length c.className).2).map
            (plcrash_async_macho_string_get_pointer c.className).2 ++ [' '] ++
          (List.range (plcrash_async_macho_string_get_length c.methodName).2).map
            (plcrash_async_macho_string_get_pointer c.methodName).2 ++ [']'] := by
  have hok : (E.objc image cache pc 1).err = PLCRASH_ESUCCESS ∧
      reported_imp (E.objc image cache pc 1).calls ≠ 0 ∧
      name_query_failed (E.objc image cache pc 1).calls = false := by
    rw [hcalls]
    exact ⟨herr, by simpa [reported_imp] using himp, by simp [name_query_failed, hq.1, hq.2]⟩
  constructor
  · rw [find_symbol_objc E image cache pc ctx ho ha hok]
    have hname : bytes (plcrash_async_objc_find_method (E.objc image cache pc 1)
          callbackObjCAddressCB innerCtx_init).2.symString symString_size =
        (descriptor c.isClassMethod c.className c.methodName).take 127 ++
          List.replicate
            (128 - min 127 (descriptor c.isClassMethod c.className c.methodName).length)
            (Char.ofNat 0) := by
      simp only [plcrash_async_objc_find_method, hcalls, List.foldl_cons, List.foldl_nil,
        callback_spec]
      have h127 : innerCtx_init.symStringMaxLen.toNat = 127 := by decide
      have hinit : innerCtx_init.symString = fun _ => Char.ofNat 0 := rfl
      rw [h127, hinit, symString_size, bytes_store_zero _ _ (by simp)]
      simp
    rw [hname, hcalls]
    simp [reported_imp]
  · simp [descriptor, component, hq.1, hq.2]

set_option maxRecDepth 20000 in
/-- The witnesses of claim C15: class `Foo` and method `bar:`, and a class name
of 120 letters with method `abcdefgh`, whose descriptor of 132 characters is
cut to 127 characters and one zero byte, with status success. -/
theorem C15_descriptor_buffer_witness :
    plcrash_async_find_symbol
        (env_of (macho_found 4096 ['_', 'm', 'a', 'i', 'n'])
          (macho_found 4096 ['_', 'm', 'a', 'i', 'n'])
          (objc_found false (handle_of ['F', 'o', 'o']) (handle_of ['b', 'a', 'r', ':']) 8192)
          (objc_found false (handle_of ['F', 'o', 'o']) (handle_of ['b', 'a', 'r', ':']) 8192))
        1 2 8200 7 =
      (PLCRASH_ESUCCESS,
        [Event.macho_find_symbol 1 8200 macho_cb.saveMachOAddressCB,
          Event.objc_find_method 1 2 8200 objc_cb.saveObjCAddressCB,
          Event.objc_find_method 1 2 8200 objc_cb.callbackObjCAddressCB,
          Event.callback 8192
            (['-', '[', 'F', 'o', 'o', ' ', 'b', 'a', 'r', ':', ']'] ++
              List.replicate 117 (Char.ofNat 0)) 7]) ∧
    plcrash_async_find_symbol
        (env_of (macho_found 4096 ['_', 'm', 'a', 'i', 'n'])
          (macho_found 4096 ['_', 'm', 'a', 'i', 'n'])
          (objc_found true (handle_of (List.replicate 120 'A'))
            (handle_of ['a', 'b', 'c', 'd', 'e', 'f', 'g', 'h']) 8192)
          (objc_found true (handle_of (List.replicate 120 'A'))
            (handle_of ['a', 'b', 'c', 'd', 'e', 'f', 'g', 'h']) 8192))
        1 2 8200 7 =
      (PLCRASH_ESUCCESS,
        [Event.macho_find_symbol 1 8200 macho_cb.saveMachOAddressCB,
          Event.objc_find_method 1 2 8200 objc_cb.saveObjCAddressCB,
          Event.objc_find_method 1 2 8200 objc_cb.callbackObjCAddressCB,
          Event.callback 8192
            (['+', '['] ++ List.replicate 120 'A' ++ [' ', 'a', 'b', 'c', 'd'] ++
              [Char.ofNat 0]) 7]) :=
  ⟨(C15_descriptor_buffer
      (env_of (macho_found 4096 ['_', 'm', 'a', 'i', 'n'])
        (macho_found 4096 ['_', 'm', 'a', 'i', 'n'])
        (objc_found false (handle_of ['F', 'o', 'o']) (handle_of ['b', 'a', 'r', ':']) 8192)
        (objc_found false (handle_of ['F', 'o', 'o']) (handle_of ['b', 'a', 'r', ':']) 8192))
      1 2 8200 7
      { isClassMethod := false, className := handle_of ['F', 'o', 'o'],
        methodName := handle_of ['b', 'a', 'r', ':'], imp := 8192 }
      rfl (by decide) rfl rfl (by decide) ⟨rfl, rfl⟩).1,
    (C15_descriptor_buffer
      (env_of (macho_found 4096 ['_', 'm', 'a', 'i', 'n'])
        (macho_found 4096 ['_', 'm', 'a', 'i', 'n'])
        (objc_found true (handle_of (List.replicate 120 'A'))
          (handle_of ['a', 'b', 'c', 'd', 'e', 'f', 'g', 'h']) 8192)
        (objc_found true (handle_of (List.replicate 120 'A'))
          (handle_of ['a', 'b', 'c', 'd', 'e', 'f', 'g', 'h']) 8192))
      1 2 8200 7
      { isClassMethod := true, className := handle_of (List.replicate 120 'A'),
        methodName := handle_of ['a', 'b', 'c', 'd', 'e', 'f', 'g', 'h'], imp := 8192 }
      rfl (by decide) rfl rfl (by decide) ⟨rfl, rfl⟩).1⟩

/-- The final cursor of the synthesizer in closed form. -/
theorem callback_cursor_spec (isClassMethod : Bool)
    (className methodName : plcrash_async_macho_string_t)
    (imp : pl_vm_address_t) (ctx : objc_callback_ctx) :
    callbackObjCAddressCB_cursor isClassMethod className methodName imp ctx =
      ((((descriptor isClassMethod className methodName).take
        ctx.symStringMaxLen.toNat).length : Nat) : Int) := by
  unfold callbackObjCAddressCB_cursor descriptor component query_failed
  simp only [plcrash_async_macho_string_get_length, plcrash_async_macho_string_get_pointer]
  by_cases hc : className.lengthErr ≠ PLCRASH_ESUCCESS ∨ className.ptrErr ≠ PLCRASH_ESUCCESS <;>
  by_cases hm : methodName.lengthErr ≠ PLCRASH_ESUCCESS ∨ methodName.ptrErr ≠ PLCRASH_ESUCCESS <;>
  simp only [hc, hm, if_true, if_false, decide_True, decide_False, append_char_first,
    append_char_step, append_loop_spec, ← List.range_eq_range', literal_ERROR,
    Bool.or_true, Bool.or_false, Bool.true_or,
    List.singleton_append, List.cons_append, List.nil_append, List.append_assoc,
    Bool.false_eq_true, Bool.or_self]

/-- Claim C16: for the same flag, names and query outcomes and two capacities
`0 ≤ N ≤ M`, the number of characters stored with capacity `N` is the minimum
of `N` and the number stored with capacity `M`, and the characters stored with
capacity `N` are the first of those stored with capacity `M`. -/
theorem C16_capacity_monotone (isClassMethod : Bool)
    (className methodName : plcrash_async_macho_string_t)
    (imp : pl_vm_address_t) (ctx : objc_callback_ctx) (N M : Int)
    (hN : 0 ≤ N) (hNM : N ≤ M) :
    callbackObjCAddressCB_cursor isClassMethod className methodName imp
        { ctx with symStringMaxLen := N } =
      min N (callbackObjCAddressCB_cursor isClassMethod className methodName imp
        { ctx with symStringMaxLen := M }) ∧
    bytes (callbackObjCAddressCB isClassMethod className methodName imp
          { ctx with symStringMaxLen := N }).symString
        (callbackObjCAddressCB_cursor isClassMethod className methodName imp
          { ctx with symStringMaxLen := N }).toNat =
      (bytes (callbackObjCAddressCB isClassMethod className methodName imp
            { ctx with symStringMaxLen := M }).symString
          (callbackObjCAddressCB_cursor isClassMethod className methodName imp
            { ctx with symStringMaxLen := M }).toNat).take
        (callbackObjCAddressCB_cursor isClassMethod className methodName imp
          { ctx with symStringMaxLen := N }).toNat := by
  simp only [callback_cursor_spec, callback_spec]
  constructor
  · simp only [List.length_take]
    omega
  · simp only [Int.toNat_ofNat]
    rw [bytes_store _ _ _ (le_refl _), bytes_store _ _ _ (le_refl _)]
    simp only [List.take_take, List.length_take]
    congr 1
    omega

/-- The witness of claim C16: class `LongClassName`, method `run`, capacities
5 and 9: five characters against nine, the same first five. -/
theorem C16_capacity_monotone_witness :
    callbackObjCAddressCB_cursor false
        (handle_of ['L', 'o', 'n', 'g', 'C', 'l', 'a', 's', 's', 'N', 'a', 'm', 'e'])
        (handle_of ['r', 'u', 'n']) 8192 { dots_ctx 0 with symStringMaxLen := 5 } =
      min 5 (callbackObjCAddressCB_cursor false
        (handle_of ['L', 'o', 'n', 'g', 'C', 'l', 'a', 's', 's', 'N', 'a', 'm', 'e'])
        (handle_of ['r', 'u', 'n']) 8192 { dots_ctx 0 with symStringMaxLen := 9 }) ∧
    bytes (callbackObjCAddressCB false
        (handle_of ['L', 'o', 'n', 'g', 'C', 'l', 'a', 's', 's', 'N', 'a', 'm', 'e'])
        (handle_of ['r', 'u', 'n']) 8192 { dots_ctx 0 with symStringMaxLen := 5 }).symString 5 =
      (bytes (callbackObjCAddressCB false
        (handle_of ['L', 'o', 'n', 'g', 'C', 'l', 'a', 's', 's', 'N', 'a', 'm', 'e'])
        (handle_of ['r', 'u', 'n']) 8192 { dots_ctx 0 with symStringMaxLen := 9 }).symString
        9).take 5 :=
  ⟨(C16_capacity_monotone false
      (handle_of ['L', 'o', 'n', 'g', 'C', 'l', 'a', 's', 's', 'N', 'a', 'm', 'e'])
      (handle_of ['r', 'u', 'n']) 8192 (dots_ctx 0) 5 9 (by decide) (by decide)).1,
    (C16_capacity_monotone false
      (handle_of ['L', 'o', 'n', 'g', 'C', 'l', 'a', 's', 's', 'N', 'a', 'm', 'e'])
      (handle_of ['r', 'u', 'n']) 8192 (dots_ctx 0) 5 9 (by decide) (by decide)).2⟩

/-- Claim C17: `append_char` returns true if and only if `cursor < limit`;
then it stores `c` at offset `cursor`, leaves every other offset as it was and
adds one to the cursor; otherwise it changes neither the memory nor the
cursor. So `0 ≤ cursor ≤ limit` is kept by a call with `limit ≥ 0`. -/
theorem C17_append_char (str : Int → Char) (c : Char) (cursor limit : Int) :
    ((append_char str c cursor limit).1 = true ↔ cursor < limit) ∧
    (cursor < limit →
      (append_char str c cursor limit).2.1 cursor = c ∧
      (∀ j : Int, j ≠ cursor → (append_char str c cursor limit).2.1 j = str j) ∧
      (append_char str c cursor limit).2.2 = cursor + 1) ∧
    (limit ≤ cursor →
      (append_char str c cursor limit).2.1 = str ∧
      (append_char str c cursor limit).2.2 = cursor) ∧
    (0 ≤ limit → 0 ≤ cursor → cursor ≤ limit →
      0 ≤ (append_char str c cursor limit).2.2 ∧
      (append_char str c cursor limit).2.2 ≤ limit) := by
  unfold append_char
  by_cases h : cursor ≥ limit
  · rw [if_pos h]
    refine ⟨⟨fun hf => absurd hf (by simp), fun hlt => absurd hlt (by omega)⟩,
      fun hlt => absurd hlt (by omega), fun _ => ⟨rfl, rfl⟩, fun _ h0 hle => ⟨h0, hle⟩⟩
  · rw [if_neg h]
    refine ⟨⟨fun _ => by omega, fun _ => rfl⟩, fun _ => ⟨by simp, ?_, rfl⟩,
      fun hle => absurd hle (by omega), fun _ h0 _ => ?_⟩
    · intro j hj
      simp [Function.update, hj]
    · show 0 ≤ cursor + 1 ∧ cursor + 1 ≤ limit
      omega

/-- The witnesses of claim C17: a store at cursor 2 under limit 5, a refused
store at cursor 5 under limit 5, and a refused store at cursor 0 under limit
0. -/
theorem C17_append_char_witness :
    ((append_char (fun _ => '.') 'x' 2 5).2.1 2 = 'x' ∧
      (∀ j : Int, j ≠ 2 → (append_char (fun _ => '.') 'x' 2 5).2.1 j = '.') ∧
      (append_char (fun _ => '.') 'x' 2 5).2.2 = 2 + 1) ∧
    ((append_char (fun _ => '.') 'x' 5 5).2.1 = (fun _ => '.') ∧
      (append_char (fun _ => '.') 'x' 5 5).2.2 = 5) ∧
    ((append_char (fun _ => '.') 'x' 0 0).2.1 = (fun _ => '.') ∧
      (append_char (fun _ => '.') 'x' 0 0).2.2 = 0) :=
  ⟨(C17_append_char (fun _ => '.') 'x' 2 5).2.1 (by decide),
    (C17_append_char (fun _ => '.') 'x' 5 5).2.2.1 (by decide),
    (C17_append_char (fun _ => '.') 'x' 0 0).2.2.1 (by decide)⟩

end PLCrash
